import Mathlib

/-!
Verification development for the Jarvis launcher repository: a text-command
dispatcher (jarvis_ui/main_window.py) routing free-text commands to two
backends, a Windows automator (jarvis_utils/windows_automator.py) and an
Android/ADB automator (jarvis_utils/android_automator.py).

The embedding is shallow: every Python function relevant to the claims is
translated into a Lean function.  External effects (subprocess execution,
the filesystem, backend-constructor success) are supplied by an explicit
environment value, and the dispatcher additionally produces a trace of
events recording each log message, each backend construction attempt and
each backend-operation invocation.
-/

/-- Single-quote character (codepoint 39), used to build the Python message
strings verbatim. -/
def pyQ : String := String.singleton (Char.ofNat 39)

/-- Boolean test that the second list starts with the first list (the
pattern comes first). -/
def listStartsWith : List Char → List Char → Bool
  | [], _ => true
  | _ :: _, [] => false
  | a :: ps, b :: ls => a = b && listStartsWith ps ls

/-- Boolean test that a pattern occurs as a contiguous sublist. -/
def listHasSub (pat : List Char) : List Char → Bool
  | [] => pat.isEmpty
  | c :: t => listStartsWith pat (c :: t) || listHasSub pat t

/-- Python substring containment: pat in s. -/
def strContains (s pat : String) : Bool := listHasSub pat.data s.data

/-- Python str.lower (modelled for the basic-latin range the commands use). -/
def pyLower (s : String) : String := String.mk (s.data.map Char.toLower)

/-- Python str.strip: drop leading and trailing whitespace. -/
def pyStrip (s : String) : String :=
  String.mk (((s.data.dropWhile Char.isWhitespace).reverse.dropWhile Char.isWhitespace).reverse)

/-- Tokenizer core for Python str.split() with no separator: walks the
characters, accumulating the current (reversed) token and emitting it at
each whitespace run, so empty tokens never appear. -/
def pySplitChars : List Char → List Char → List String
  | [], acc => if acc.isEmpty then [] else [String.mk acc.reverse]
  | c :: t, acc =>
    if c.isWhitespace then
      if acc.isEmpty then pySplitChars t [] else String.mk acc.reverse :: pySplitChars t []
    else pySplitChars t (c :: acc)

/-- Python str.split() with no separator: split on whitespace runs,
discarding empty tokens. -/
def pySplit (s : String) : List String := pySplitChars s.data []

/-- Python " ".join. -/
def joinSpace : List String → String
  | [] => ""
  | [x] => x
  | x :: y :: t => x ++ " " ++ joinSpace (y :: t)

/-- Python list membership test (the in operator) for token lists. -/
def listMem (a : String) : List String → Bool
  | [] => false
  | b :: t => b = a || listMem a t

/-- Python list.index: index of the first occurrence (callers guard with
membership, so the out-of-range value is never used). -/
def listIndexOf (a : String) : List String → Nat
  | [] => 0
  | b :: t => if b = a then 0 else listIndexOf a t + 1

/-- Boolean test that the first list ends with the second list (pattern). -/
def listEndsWith (l pat : List Char) : Bool := listStartsWith pat.reverse l.reverse

/-- Python str.endswith for a single suffix. -/
def strEndsWith (s pat : String) : Bool := listEndsWith s.data pat.data

/-- Validity of the digit part of a Python integer literal after its first
digit: digits with single interior underscores, as accepted by int(). -/
def pyDigitsOk : List Char → Bool
  | [] => true
  | c :: t =>
    if c = Char.ofNat 95 then
      match t with
      | [] => false
      | d :: t2 => d.isDigit && pyDigitsOk t2
    else c.isDigit && pyDigitsOk t

/-- Numeric value of a digit string, skipping underscores. -/
def pyDigitsVal : List Char → Nat → Nat
  | [], acc => acc
  | c :: t, acc =>
    if c = Char.ofNat 95 then pyDigitsVal t acc
    else pyDigitsVal t (acc * 10 + (c.toNat - 48))

/-- Unsigned part of Python int() parsing: first char must be a digit. -/
def pyIntCore (l : List Char) : Option Nat :=
  match l with
  | [] => none
  | c :: t => if c.isDigit && pyDigitsOk t then some (pyDigitsVal (c :: t) 0) else none

/-- Python int(str) on a whitespace-free token: optional sign then digits;
returns none exactly when int() raises ValueError. -/
def pyInt (s : String) : Option Int :=
  match s.data with
  | '+' :: rest => (pyIntCore rest).map (fun n => (n : Int))
  | '-' :: rest => (pyIntCore rest).map (fun n => -(n : Int))
  | l => (pyIntCore l).map (fun n => (n : Int))

/-- Result of one external subprocess run of the ADB binary: normal exit
with stdout, non-zero exit with captured stdout and stderr
(CalledProcessError), or a missing binary (FileNotFoundError). -/
inductive ProcResult where
  | ok (stdout : String)
  | err (stdout stderr : String)
  | notFound
deriving DecidableEq, Repr

/-- Outcome of attempting to import and construct a backend automator. -/
inductive CtorOutcome where
  | ok
  | importErr
  | exnErr (msg : String)
deriving DecidableEq, Repr

/-- Abstract filesystem view used by list_directory_contents. -/
structure FS where
  pathExists : String → Bool
  isDir : String → Bool
  listdir : String → List String

/-- Environment supplying every external effect the embedded code consults:
backend-constructor outcomes, the filesystem, the result of each ADB
subprocess run (keyed on the full command line), and whether the Windows
shell Popen launch raises (some gives the exception text). -/
structure Env where
  winCtor : CtorOutcome
  androidCtor : CtorOutcome
  fs : FS
  adbRun : List String → ProcResult
  popenExn : String → Option String

/-- Python value that is either a list of strings or a plain message string
(the untyped second component of several (success, result) returns). -/
inductive PyResult where
  | items (l : List String)
  | msg (s : String)
deriving DecidableEq, Repr

/-- Embedding of WindowsAutomator.open_application: issues a non-blocking
shell start via Popen and reports dispatch, not actual launch.  The second
component lists the shell commands actually spawned. -/
def WindowsAutomator.open_application (env : Env) (app_name : String) :
    (Bool × String) × List String :=
  match env.popenExn app_name with
  | none => ((true, "Attempting to open " ++ pyQ ++ app_name ++ pyQ ++ "."), ["start " ++ app_name])
  | some e => ((false, "Error opening application " ++ pyQ ++ app_name ++ pyQ ++ ": " ++ e), [])

/-- Embedding of WindowsAutomator.list_directory_contents.  The underlying
os.listdir call is modelled as total; the claims only exercise the
existence and directory checks. -/
def WindowsAutomator.list_directory_contents (fs : FS) (dir_path : String := ".") :
    Bool × PyResult :=
  if !(fs.pathExists dir_path) || !(fs.isDir dir_path) then
    (false, PyResult.msg ("Error: Directory " ++ pyQ ++ dir_path ++ pyQ ++
      " not found or is not a directory."))
  else
    (true, PyResult.items (fs.listdir dir_path))

/-- Embedding of WindowsAutomator.system_command.  The confirmation branch
in the source is a bare pass, and the subprocess.Popen line executing the
mapped command is commented out in the source, so the list of spawned shell
commands (second component) is always empty. -/
def WindowsAutomator.system_command (command_key : String)
    (confirmation_required : Bool := true) : (Bool × String) × List String :=
  let commands : List (String × String) :=
    [("shutdown", "shutdown /s /t 1"), ("restart", "shutdown /r /t 1")]
  match commands.lookup command_key with
  | none => ((false, "Unknown system command: " ++ command_key), [])
  | some actual =>
    let _ := confirmation_required
    ((true, "Simulating execution of system command: " ++ pyQ ++ command_key ++ pyQ ++
      ". Actual command: " ++ pyQ ++ actual ++ pyQ), [])

/-- Embedding of WindowsAutomator.take_screenshot: an unconditional
placeholder failure. -/
def WindowsAutomator.take_screenshot (_output_filepath : String := "screenshot.png") :
    (Bool × String) × List String :=
  ((false, "Screenshot functionality is a placeholder and not yet implemented."), [])

/-- Embedding of AndroidAutomator._run_adb_command with an explicit ADB
binary path and optional device selector: classifies the subprocess outcome
into exactly the three buckets of the source. -/
def AndroidAutomator.run_adb_command_with (env : Env) (adb_path : String)
    (command_parts : List String) (device_id : Option String) : Bool × String :=
  let base_command :=
    match device_id with
    | some d => [adb_path, "-s", d]
    | none => [adb_path]
  let full_command := base_command ++ command_parts
  match env.adbRun full_command with
  | ProcResult.ok out => (true, pyStrip out)
  | ProcResult.err out errout =>
    let error_message := if errout ≠ "" then pyStrip errout else pyStrip out
    (false, "ADB Command Error: " ++ pyQ ++ joinSpace full_command ++ pyQ ++
      " failed with: " ++ error_message)
  | ProcResult.notFound =>
    (false, "Error: ADB executable not found. Please ensure it" ++ pyQ ++
      "s installed and in your PATH.")

/-- AndroidAutomator._run_adb_command as used from the launcher: the
default "adb" binary path and no device selector. -/
def AndroidAutomator.run_adb_command (env : Env) (command_parts : List String) :
    Bool × String :=
  AndroidAutomator.run_adb_command_with env "adb" command_parts none

/-- Embedding of AndroidAutomator.list_connected_devices: parses the
devices output, skipping the header line and keeping the first
tab-separated field of each non-blank line. -/
def AndroidAutomator.list_connected_devices (env : Env) : Bool × PyResult :=
  let r := AndroidAutomator.run_adb_command env ["devices"]
  if r.1 then
    let lines := (pyStrip r.2).split (fun c => c = '\n')
    let devices := (lines.drop 1).filterMap (fun line =>
      if pyStrip line ≠ "" then some ((line.split (fun c => c = '\t')).headD "") else none)
    (true, PyResult.items devices)
  else
    (false, PyResult.msg r.2)

/-- Embedding of AndroidAutomator.open_app: a monkey launch, then on an
ambiguous output a secondary pm list packages existence probe. -/
def AndroidAutomator.open_app (env : Env) (package_name : String) : Bool × String :=
  let r := AndroidAutomator.run_adb_command env
    ["shell", "monkey", "-p", package_name, "-c", "android.intent.category.LAUNCHER", "1"]
  if r.1 then
    if strContains r.2 "Events injected: 1" || r.2 = "" then
      (true, "Attempting to open app " ++ pyQ ++ package_name ++ pyQ ++ ".")
    else
      let e := AndroidAutomator.run_adb_command env
        ["shell", "pm", "list", "packages", package_name]
      if e.1 && strContains e.2 package_name then
        (false, "App " ++ pyQ ++ package_name ++ pyQ ++
          " found, but could not be launched via monkey. Output: " ++ r.2)
      else
        (false, "Failed to open app " ++ pyQ ++ package_name ++ pyQ ++
          ". It might not be installed or launchable. ADB Output: " ++ r.2)
  else
    (false, r.2)

/-- Embedding of AndroidAutomator.simulate_input_tap. -/
def AndroidAutomator.simulate_input_tap (env : Env) (x y : Int) : Bool × String :=
  AndroidAutomator.run_adb_command env ["shell", "input", "tap", toString x, toString y]

/-- Embedding of AndroidAutomator.simulate_input_swipe. -/
def AndroidAutomator.simulate_input_swipe (env : Env) (x1 y1 x2 y2 : Int)
    (duration_ms : Int := 300) : Bool × String :=
  AndroidAutomator.run_adb_command env
    ["shell", "input", "swipe", toString x1, toString y1, toString x2, toString y2,
     toString duration_ms]

/-- Embedding of AndroidAutomator.simulate_input_text with the single-quote
escaping of the source. -/
def AndroidAutomator.simulate_input_text (env : Env) (text_to_type : String) : Bool × String :=
  let escaped_text := text_to_type.replace pyQ (pyQ ++ "\\" ++ pyQ ++ pyQ)
  AndroidAutomator.run_adb_command env ["shell", "input", "text", escaped_text]

/-- Embedding of AndroidAutomator.take_screenshot_android: capture on the
device, pull to the local path, then best-effort remote cleanup whose
result is discarded.  The local makedirs step touches only the local
filesystem and never the returned result, so it is not modelled. -/
def AndroidAutomator.take_screenshot_android (env : Env)
    (local_save_path : String := "android_screenshot.png")
    (device_sdcard_path : String := "/sdcard/screenshot.png") : Bool × String :=
  let cap := AndroidAutomator.run_adb_command env ["shell", "screencap", device_sdcard_path]
  if !cap.1 then
    (false, "Failed to take screenshot on device: " ++ cap.2)
  else
    let pull := AndroidAutomator.run_adb_command env
      ["pull", device_sdcard_path, local_save_path]
    if !pull.1 then
      (false, "Failed to pull screenshot from device (" ++ device_sdcard_path ++ ") to " ++
        local_save_path ++ ": " ++ pull.2)
    else
      let _ := AndroidAutomator.run_adb_command env ["shell", "rm", device_sdcard_path]
      (true, "Screenshot saved to " ++ local_save_path)

/-- Trace events produced while processing one UI command: log lines,
backend construction attempts (emitted when the import in the try block of
the corresponding load method runs), and each backend-operation
invocation with the argument values passed to it. -/
inductive Event where
  | attemptLoadWindows
  | attemptLoadAndroid
  | log (msg : String)
  | winOpenApplication (app_name : String)
  | winListDirectory (dir_path : String)
  | winSystemCommand (key : String) (confirmation_required : Bool)
  | winTakeScreenshot (filename : String)
  | droidOpenApp (package_name : String)
  | droidTakeScreenshot (filename : String)
  | droidListDevices
  | droidTap (x y : Int)
  | droidSwipe (x1 y1 x2 y2 dur : Int)
  | droidText (text : String)
deriving DecidableEq, Repr

/-- Dispatcher state: the two lazily created backend handles.  In the
source an absent attribute and an attribute holding None are
indistinguishable to every reader (both are checked together), so both are
modelled as none. -/
structure LauncherState where
  windows_automator_instance : Option Unit
  android_automator_instance : Option Unit
deriving DecidableEq, Repr

/-- Launcher state before any command has been processed. -/
def initialState : LauncherState := { windows_automator_instance := none,
                                      android_automator_instance := none }

/-- Embedding of JarvisLauncher.load_windows_automator: constructs the
Windows backend on first use; an ImportError or a constructor exception is
caught, logged and leaves the handle at none. -/
def load_windows_automator (env : Env) (s : LauncherState) : LauncherState × List Event :=
  match s.windows_automator_instance with
  | some _ => (s, [])
  | none =>
    match env.winCtor with
    | CtorOutcome.ok =>
      ({ s with windows_automator_instance := some () },
       [Event.attemptLoadWindows, Event.log "Jarvis: WindowsAutomator loaded."])
    | CtorOutcome.importErr =>
      ({ s with windows_automator_instance := none },
       [Event.attemptLoadWindows,
        Event.log "Jarvis Error: Could not import WindowsAutomator module."])
    | CtorOutcome.exnErr e =>
      ({ s with windows_automator_instance := none },
       [Event.attemptLoadWindows,
        Event.log ("Jarvis Error: Failed to initialize WindowsAutomator: " ++ e)])

/-- Embedding of JarvisLauncher.load_android_automator, with the same
catch-and-log shape as the Windows loader. -/
def load_android_automator (env : Env) (s : LauncherState) : LauncherState × List Event :=
  match s.android_automator_instance with
  | some _ => (s, [])
  | none =>
    match env.androidCtor with
    | CtorOutcome.ok =>
      ({ s with android_automator_instance := some () },
       [Event.attemptLoadAndroid,
        Event.log "Jarvis: AndroidAutomator loaded. Initializing ADB connection..."])
    | CtorOutcome.importErr =>
      ({ s with android_automator_instance := none },
       [Event.attemptLoadAndroid,
        Event.log "Jarvis Error: Could not import AndroidAutomator module."])
    | CtorOutcome.exnErr e =>
      ({ s with android_automator_instance := none },
       [Event.attemptLoadAndroid,
        Event.log ("Jarvis Error: Failed to initialize AndroidAutomator: " ++ e)])

/-- Embedding of JarvisLauncher.handle_open_command.  The parts argument is
the full lower-cased token list (first token "open"); command_text is only
received, never used, by the source method. -/
def handle_open_command (env : Env) (s : LauncherState) (parts : List String) :
    LauncherState × List Event :=
  let app_name_parts0 := parts.drop 1
  let target_and_parts :=
    if listMem "on" app_name_parts0 then
      let on_index := listIndexOf "on" app_name_parts0
      if on_index + 1 < app_name_parts0.length then
        let specified_os := pyLower (app_name_parts0.getD (on_index + 1) "")
        if specified_os = "android" || specified_os = "windows" then
          (specified_os, app_name_parts0.take on_index)
        else ("windows", app_name_parts0)
      else ("windows", app_name_parts0)
    else ("windows", app_name_parts0)
  let target_os := target_and_parts.1
  let app_name := joinSpace target_and_parts.2
  if app_name = "" then
    (s, [Event.log ("Jarvis: No application name specified for " ++ pyQ ++ "open" ++ pyQ ++
      " command.")])
  else if target_os = "windows" then
    let r := load_windows_automator env s
    match r.1.windows_automator_instance with
    | some _ =>
      let call := WindowsAutomator.open_application env app_name
      (r.1, r.2 ++ [Event.winOpenApplication app_name,
        Event.log ("Jarvis (Win): " ++ call.1.2)])
    | none =>
      (r.1, r.2 ++ [Event.log "Jarvis: WindowsAutomator not available/loaded."])
  else if target_os = "android" then
    let r := load_android_automator env s
    match r.1.android_automator_instance with
    | some _ =>
      let call := AndroidAutomator.open_app env app_name
      (r.1, r.2 ++
        [Event.log ("Jarvis (Droid): Attempting to open " ++ pyQ ++ app_name ++ pyQ ++
          ". (Note: This should be a package name for Android)."),
         Event.droidOpenApp app_name,
         Event.log ("Jarvis (Droid): " ++ call.2)])
    | none =>
      (r.1, r.2 ++
        [Event.log "Jarvis: AndroidAutomator not available/loaded, or no device connected."])
  else
    (s, [Event.log ("Jarvis: Target OS " ++ pyQ ++ target_os ++ pyQ ++
      " not recognized for open command.")])

/-- Embedding of JarvisLauncher.handle_list_command (always the Windows
backend). -/
def handle_list_command (env : Env) (s : LauncherState) (parts : List String) :
    LauncherState × List Event :=
  let dir_path := joinSpace (parts.drop 1)
  let r := load_windows_automator env s
  match r.1.windows_automator_instance with
  | some _ =>
    let call := WindowsAutomator.list_directory_contents env.fs dir_path
    let tail :=
      if call.1 then
        [Event.log ("Jarvis (Win): Contents of " ++ pyQ ++ dir_path ++ pyQ ++ ":")] ++
        (match call.2 with
         | PyResult.items l => l.map (fun item => Event.log ("  - " ++ item))
         | PyResult.msg m => [Event.log ("  " ++ m)])
      else
        match call.2 with
        | PyResult.items _ => [Event.log "Jarvis (Win): "]
        | PyResult.msg m => [Event.log ("Jarvis (Win): " ++ m)]
    (r.1, r.2 ++ [Event.winListDirectory dir_path] ++ tail)
  | none =>
    (r.1, r.2 ++ [Event.log "Jarvis: WindowsAutomator not available/loaded."])

/-- Embedding of JarvisLauncher.handle_system_command (always the Windows
backend, confirmation_required passed as False). -/
def handle_system_command (env : Env) (s : LauncherState) (parts : List String) :
    LauncherState × List Event :=
  let command_key := parts.getD 1 ""
  let r := load_windows_automator env s
  match r.1.windows_automator_instance with
  | some _ =>
    let call := WindowsAutomator.system_command command_key false
    (r.1, r.2 ++ [Event.winSystemCommand command_key false,
      Event.log ("Jarvis (Win): " ++ call.1.2)])
  | none =>
    (r.1, r.2 ++ [Event.log "Jarvis: WindowsAutomator not available/loaded."])

/-- Embedding of JarvisLauncher.handle_screenshot_command: optional target
OS and optional filename, the ".png" default extension, and the same
route-and-load shape as the open command. -/
def handle_screenshot_command (env : Env) (s : LauncherState) (parts : List String) :
    LauncherState × List Event :=
  let filename_base := "jarvis_screenshot"
  let arg1 : Option String :=
    match parts.drop 1 with
    | [] => none
    | a :: _ => some (pyLower a)
  let arg2 : Option String :=
    match parts.drop 2 with
    | [] => none
    | a :: _ => some a
  let target_and_custom : String × Option String :=
    match arg1 with
    | none => ("windows", none)
    | some a1 =>
      if a1 = "android" then ("android", arg2)
      else if a1 = "windows" then ("windows", arg2)
      else if a1 ≠ "" then ("windows", some a1)
      else ("windows", none)
  let target_os := target_and_custom.1
  let custom0 := target_and_custom.2
  let custom : Option String :=
    match custom0 with
    | none => none
    | some c =>
      if !(strEndsWith (pyLower c) ".png" || strEndsWith (pyLower c) ".jpg" ||
           strEndsWith (pyLower c) ".jpeg") then
        some (c ++ ".png")
      else some c
  let final_filename :=
    match custom with
    | some c => c
    | none => filename_base ++ "_" ++ target_os ++ ".png"
  if target_os = "windows" then
    let r := load_windows_automator env s
    match r.1.windows_automator_instance with
    | some _ =>
      let call := WindowsAutomator.take_screenshot final_filename
      (r.1, r.2 ++ [Event.winTakeScreenshot final_filename,
        Event.log ("Jarvis (Win): " ++ call.1.2)])
    | none =>
      (r.1, r.2 ++ [Event.log "Jarvis: WindowsAutomator not available/loaded."])
  else if target_os = "android" then
    let r := load_android_automator env s
    match r.1.android_automator_instance with
    | some _ =>
      let call := AndroidAutomator.take_screenshot_android env final_filename
      (r.1, r.2 ++ [Event.droidTakeScreenshot final_filename,
        Event.log ("Jarvis (Droid): " ++ call.2)])
    | none =>
      (r.1, r.2 ++
        [Event.log "Jarvis: AndroidAutomator not available/loaded, or no device connected."])
  else
    (s, [Event.log ("Jarvis: Target OS " ++ pyQ ++ target_os ++ pyQ ++
      " not recognized for screenshot.")])

/-- Embedding of JarvisLauncher.handle_adb_command: devices, tap, swipe and
text subcommands; integer arguments are validated with pyInt before any
backend invocation, mirroring the try/except ValueError of the source. -/
def handle_adb_command (env : Env) (s : LauncherState) (parts : List String) :
    LauncherState × List Event :=
  let r := load_android_automator env s
  match r.1.android_automator_instance with
  | none =>
    (r.1, r.2 ++
      [Event.log "Jarvis: AndroidAutomator not available/loaded, or no device connected."])
  | some _ =>
    let sub_command := parts.getD 1 ""
    let args := parts.drop 2
    let tail : List Event :=
      if sub_command = "devices" then
        let call := AndroidAutomator.list_connected_devices env
        [Event.droidListDevices] ++
        (if call.1 then
          match call.2 with
          | PyResult.items dev_list =>
            if dev_list ≠ [] then
              [Event.log "Jarvis (Droid) Connected Devices/Emulators:"] ++
              dev_list.map (fun dev => Event.log ("  - " ++ dev))
            else [Event.log "Jarvis (Droid): No devices found connected via ADB."]
          | PyResult.msg _ => []
        else
          match call.2 with
          | PyResult.items _ => []
          | PyResult.msg m => [Event.log ("Jarvis (Droid) Error listing devices: " ++ m)])
      else if sub_command = "tap" ∧ args.length = 2 then
        match pyInt (args.getD 0 ""), pyInt (args.getD 1 "") with
        | some x, some y =>
          let call := AndroidAutomator.simulate_input_tap env x y
          [Event.droidTap x y,
           Event.log ("Jarvis (Droid) Tap at (" ++ toString x ++ "," ++ toString y ++ "): " ++
             call.2)]
        | _, _ =>
          [Event.log "Jarvis (Droid) Error: Invalid coordinates for tap. Usage: adb tap <x> <y>"]
      else if sub_command = "swipe" ∧ args.length ≥ 4 then
        match pyInt (args.getD 0 ""), pyInt (args.getD 1 ""), pyInt (args.getD 2 ""),
              pyInt (args.getD 3 "") with
        | some x1, some y1, some x2, some y2 =>
          let durOpt : Option Int :=
            if args.length > 4 then pyInt (args.getD 4 "") else some 300
          match durOpt with
          | some dur =>
            let call := AndroidAutomator.simulate_input_swipe env x1 y1 x2 y2 dur
            [Event.droidSwipe x1 y1 x2 y2 dur,
             Event.log ("Jarvis (Droid) Swipe from (" ++ toString x1 ++ "," ++ toString y1 ++
               ") to (" ++ toString x2 ++ "," ++ toString y2 ++ ") duration " ++ toString dur ++
               "ms: " ++ call.2)]
          | none =>
            [Event.log ("Jarvis (Droid) Error: Invalid coordinates/duration for swipe. " ++
              "Usage: adb swipe <x1> <y1> <x2> <y2> [duration_ms]")]
        | _, _, _, _ =>
          [Event.log ("Jarvis (Droid) Error: Invalid coordinates/duration for swipe. " ++
            "Usage: adb swipe <x1> <y1> <x2> <y2> [duration_ms]")]
      else if sub_command = "text" ∧ args ≠ [] then
        let text_to_type := joinSpace args
        let call := AndroidAutomator.simulate_input_text env text_to_type
        [Event.droidText text_to_type,
         Event.log ("Jarvis (Droid) Text input " ++ pyQ ++ text_to_type ++ pyQ ++ ": " ++
           call.2)]
      else
        [Event.log ("Jarvis (Droid): Unknown ADB sub-command " ++ pyQ ++ sub_command ++ pyQ ++
           " or incorrect arguments."),
         Event.log ("Supported ADB via UI: devices, tap <x> <y>, swipe <x1> <y1> <x2> <y2> " ++
           "[duration_ms], text <string to type>")]
    (r.1, r.2 ++ tail)

/-- Embedding of JarvisLauncher.process_ui_command: logs the raw command,
tokenizes the lower-cased line, performs the two conditional backend
preloads, then dispatches on the first token. -/
def process_ui_command (env : Env) (s : LauncherState) (command_text : String) :
    LauncherState × List Event :=
  let ev0 := [Event.log ("User command: " ++ command_text)]
  let parts := pySplit (pyLower command_text)
  match parts with
  | [] => (s, ev0)
  | action :: rest =>
    let pre1 :=
      if (action = "list" ∨ action = "system") ∨
         (strContains action "open" = true ∧
          strContains (pyLower command_text) "android" = false) then
        if s.windows_automator_instance = none then load_windows_automator env s
        else (s, [])
      else (s, [])
    let s1 := pre1.1
    let pre2 :=
      if strContains (pyLower command_text) "android" = true ∨ action = "adb" then
        if s1.android_automator_instance = none then load_android_automator env s1
        else (s1, [])
      else (s1, [])
    let s2 := pre2.1
    let evPre := ev0 ++ pre1.2 ++ pre2.2
    if action = "hello" then
      (s2, evPre ++ [Event.log "Jarvis: Hello there!"])
    else if action = "open" ∧ rest.length > 0 then
      let r := handle_open_command env s2 (action :: rest)
      (r.1, evPre ++ r.2)
    else if action = "list" ∧ rest.length > 0 then
      let r := handle_list_command env s2 (action :: rest)
      (r.1, evPre ++ r.2)
    else if action = "system" ∧ rest.length > 0 then
      let r := handle_system_command env s2 (action :: rest)
      (r.1, evPre ++ r.2)
    else if action = "screenshot" then
      let r := handle_screenshot_command env s2 (action :: rest)
      (r.1, evPre ++ r.2)
    else if action = "adb" ∧ rest.length > 0 then
      let r := handle_adb_command env s2 (action :: rest)
      (r.1, evPre ++ r.2)
    else
      (s2, evPre ++ [Event.log ("Jarvis: Command " ++ pyQ ++ command_text ++ pyQ ++
        " not recognized or arguments missing.")])

theorem listStartsWith_self_append (p r : List Char) : listStartsWith p (p ++ r) = true := by
  induction p with
  | nil => simp [listStartsWith]
  | cons a t ih => simp [listStartsWith, ih]

theorem listStartsWith_append (p l r : List Char) (h : listStartsWith p l = true) :
    listStartsWith p (l ++ r) = true := by
  induction p generalizing l with
  | nil => simp [listStartsWith]
  | cons a t ih =>
    cases l with
    | nil => simp [listStartsWith] at h
    | cons b ls =>
      simp only [listStartsWith, Bool.and_eq_true, decide_eq_true_eq] at h
      simp only [List.cons_append, listStartsWith, Bool.and_eq_true, decide_eq_true_eq]
      exact ⟨h.1, ih ls h.2⟩

theorem listHasSub_nil_pat (r : List Char) : listHasSub [] r = true := by
  cases r <;> simp [listHasSub, listStartsWith]

theorem listHasSub_append_right (p l r : List Char) (h : listHasSub p r = true) :
    listHasSub p (l ++ r) = true := by
  induction l with
  | nil => simpa using h
  | cons c t ih =>
    show (listStartsWith p (c :: (t ++ r)) || listHasSub p (t ++ r)) = true
    rw [ih]
    simp

theorem listHasSub_append_left (p l r : List Char) (h : listHasSub p l = true) :
    listHasSub p (l ++ r) = true := by
  induction l with
  | nil =>
    have hp : p = [] := by
      cases p
      · rfl
      · simp [listHasSub, List.isEmpty] at h
    rw [hp]
    exact listHasSub_nil_pat r
  | cons c t ih =>
    have h2 : (listStartsWith p (c :: t) || listHasSub p t) = true := h
    show (listStartsWith p (c :: (t ++ r)) || listHasSub p (t ++ r)) = true
    rcases Bool.or_eq_true_iff.mp h2 with hs | ht
    · rw [show (c :: (t ++ r)) = (c :: t) ++ r from rfl, listStartsWith_append p _ r hs]
      simp
    · rw [ih ht]
      simp

theorem listHasSub_append_self (p l r : List Char) : listHasSub p (l ++ (p ++ r)) = true := by
  induction l with
  | nil =>
    cases hp : p ++ r with
    | nil =>
      have hpe : p = [] := by
        cases p
        · rfl
        · simp at hp
      simp [hpe, listHasSub]
    | cons c t =>
      simp only [List.nil_append, hp, listHasSub]
      rw [← hp, listStartsWith_self_append]
      simp
  | cons c t ih =>
    show (listStartsWith p (c :: (t ++ (p ++ r))) || listHasSub p (t ++ (p ++ r))) = true
    rw [ih]
    simp

theorem strContains_append_right (a b pat : String) (h : strContains b pat = true) :
    strContains (a ++ b) pat = true := by
  simp only [strContains, String.data_append]
  exact listHasSub_append_right pat.data a.data b.data h

theorem strContains_append_left (a b pat : String) (h : strContains a pat = true) :
    strContains (a ++ b) pat = true := by
  simp only [strContains, String.data_append]
  exact listHasSub_append_left pat.data a.data b.data h

theorem strContains_mid (a b c : String) : strContains (a ++ b ++ c) b = true := by
  simp only [strContains, String.data_append, List.append_assoc]
  exact listHasSub_append_self b.data a.data c.data

theorem string_ne_of_take_ne (s t : String) (n : Nat) (h : s.data.take n ≠ t.data.take n) :
    s ≠ t := fun he => h (by rw [he])

/-- C6: system_command with key shutdown or restart returns success with a
message naming the command key; any other key returns failure with exactly
the message Unknown system command: followed by the key; and the mapped
privileged OS command is never spawned (the spawned-command list is always
empty, since the Popen line is commented out in the source). -/
theorem system_command_contract :
    ∀ c : Bool,
      (WindowsAutomator.system_command "shutdown" c =
        ((true, "Simulating execution of system command: " ++ pyQ ++ "shutdown" ++ pyQ ++
          ". Actual command: " ++ pyQ ++ "shutdown /s /t 1" ++ pyQ), []) ∧
       strContains ("Simulating execution of system command: " ++ pyQ ++ "shutdown" ++ pyQ ++
          ". Actual command: " ++ pyQ ++ "shutdown /s /t 1" ++ pyQ) "shutdown" = true) ∧
      (WindowsAutomator.system_command "restart" c =
        ((true, "Simulating execution of system command: " ++ pyQ ++ "restart" ++ pyQ ++
          ". Actual command: " ++ pyQ ++ "shutdown /r /t 1" ++ pyQ), []) ∧
       strContains ("Simulating execution of system command: " ++ pyQ ++ "restart" ++ pyQ ++
          ". Actual command: " ++ pyQ ++ "shutdown /r /t 1" ++ pyQ) "restart" = true) ∧
      (∀ key : String, key ≠ "shutdown" → key ≠ "restart" →
        WindowsAutomator.system_command key c =
          ((false, "Unknown system command: " ++ key), [])) ∧
      (∀ key : String, (WindowsAutomator.system_command key c).2 = []) := by
  intro c
  refine ⟨⟨rfl, by decide⟩, ⟨rfl, by decide⟩, ?_, ?_⟩
  · intro key h1 h2
    have hb1 : (key == "shutdown") = false := beq_eq_false_iff_ne.mpr h1
    have hb2 : (key == "restart") = false := beq_eq_false_iff_ne.mpr h2
    simp [WindowsAutomator.system_command, List.lookup, hb1, hb2]
  · intro key
    simp only [WindowsAutomator.system_command]
    cases List.lookup key [("shutdown", "shutdown /s /t 1"), ("restart", "shutdown /r /t 1")] <;>
      rfl

/-- Witness for system_command_contract at a concrete unknown key and
concrete confirmation flag. -/
theorem system_command_contract_witness :
    WindowsAutomator.system_command "volume" false =
      ((false, "Unknown system command: volume"), []) :=
  (system_command_contract false).2.2.1 "volume" (by decide) (by decide)

/-- C7: list_directory_contents fails with one and the same message
containing "not found" both when the path does not exist and when it exists
but is not a directory, and on an existing directory returns the entry list
exactly as the filesystem yields it. -/
theorem list_directory_contents_contract :
    ∀ (fs : FS) (dir_path : String),
      (fs.pathExists dir_path = false →
        WindowsAutomator.list_directory_contents fs dir_path =
          (false, PyResult.msg ("Error: Directory " ++ pyQ ++ dir_path ++ pyQ ++
            " not found or is not a directory.")) ∧
        strContains ("Error: Directory " ++ pyQ ++ dir_path ++ pyQ ++
            " not found or is not a directory.") "not found" = true) ∧
      (fs.pathExists dir_path = true → fs.isDir dir_path = false →
        WindowsAutomator.list_directory_contents fs dir_path =
          (false, PyResult.msg ("Error: Directory " ++ pyQ ++ dir_path ++ pyQ ++
            " not found or is not a directory."))) ∧
      (fs.pathExists dir_path = true → fs.isDir dir_path = true →
        WindowsAutomator.list_directory_contents fs dir_path =
          (true, PyResult.items (fs.listdir dir_path))) := by
  intro fs dir_path
  refine ⟨fun h => ⟨?_, ?_⟩, fun h1 h2 => ?_, fun h1 h2 => ?_⟩
  · simp [WindowsAutomator.list_directory_contents, h]
  · exact strContains_append_right _ _ _ (by decide)
  · simp [WindowsAutomator.list_directory_contents, h1, h2]
  · simp [WindowsAutomator.list_directory_contents, h1, h2]

/-- Witness for list_directory_contents_contract on a concrete one-path
filesystem, exercising the existing-directory branch. -/
theorem list_directory_contents_contract_witness :
    WindowsAutomator.list_directory_contents
      { pathExists := fun p => p = "C:\\Temp", isDir := fun p => p = "C:\\Temp",
        listdir := fun _ => ["b.txt", "a.txt"] } "C:\\Temp" =
      (true, PyResult.items ["b.txt", "a.txt"]) :=
  (list_directory_contents_contract
    { pathExists := fun p => p = "C:\\Temp", isDir := fun p => p = "C:\\Temp",
      listdir := fun _ => ["b.txt", "a.txt"] } "C:\\Temp").2.2 (by decide) (by decide)

/-- C10: the result of system_command is independent of the
confirmation_required argument; the flag reaches only a pass statement. -/
theorem system_command_confirmation_independent :
    ∀ key : String,
      WindowsAutomator.system_command key true = WindowsAutomator.system_command key false := by
  intro key
  rfl

/-- Empty filesystem used by concrete environments. -/
def fsEmpty : FS := { pathExists := fun _ => false, isDir := fun _ => false,
                      listdir := fun _ => [] }

/-- Concrete environment builder: both constructors succeed, Popen never
raises, and the ADB subprocess behaviour is the given function. -/
def mkEnv (adb : List String → ProcResult) : Env :=
  { winCtor := CtorOutcome.ok, androidCtor := CtorOutcome.ok, fs := fsEmpty,
    adbRun := adb, popenExn := fun _ => none }

/-- C5: in take_screenshot_android the reported result depends only on the
capture and pull steps: capture-success plus pull-failure yields failure
with a message containing "Failed to pull screenshot"; capture-success plus
pull-success yields success naming the local path, whatever the remote rm
returns; capture-failure yields the capture failure message. -/
theorem take_screenshot_android_contract :
    ∀ (env : Env) (local_save_path device_sdcard_path : String),
      ((AndroidAutomator.run_adb_command env ["shell", "screencap", device_sdcard_path]).1 =
          true →
       (AndroidAutomator.run_adb_command env
          ["pull", device_sdcard_path, local_save_path]).1 = false →
        AndroidAutomator.take_screenshot_android env local_save_path device_sdcard_path =
          (false, "Failed to pull screenshot from device (" ++ device_sdcard_path ++ ") to " ++
            local_save_path ++ ": " ++
            (AndroidAutomator.run_adb_command env
              ["pull", device_sdcard_path, local_save_path]).2) ∧
        strContains ("Failed to pull screenshot from device (" ++ device_sdcard_path ++
            ") to " ++ local_save_path ++ ": " ++
            (AndroidAutomator.run_adb_command env
              ["pull", device_sdcard_path, local_save_path]).2)
          "Failed to pull screenshot" = true) ∧
      ((AndroidAutomator.run_adb_command env ["shell", "screencap", device_sdcard_path]).1 =
          true →
       (AndroidAutomator.run_adb_command env
          ["pull", device_sdcard_path, local_save_path]).1 = true →
        AndroidAutomator.take_screenshot_android env local_save_path device_sdcard_path =
          (true, "Screenshot saved to " ++ local_save_path)) ∧
      ((AndroidAutomator.run_adb_command env ["shell", "screencap", device_sdcard_path]).1 =
          false →
        AndroidAutomator.take_screenshot_android env local_save_path device_sdcard_path =
          (false, "Failed to take screenshot on device: " ++
            (AndroidAutomator.run_adb_command env
              ["shell", "screencap", device_sdcard_path]).2)) := by
  intro env local_save_path device_sdcard_path
  refine ⟨fun h1 h2 => ⟨?_, ?_⟩, fun h1 h2 => ?_, fun h1 => ?_⟩
  · simp [AndroidAutomator.take_screenshot_android, h1, h2]
  · exact strContains_append_left _ _ _ (strContains_append_left _ _ _
      (strContains_append_left _ _ _ (strContains_append_left _ _ _
        (strContains_append_left _ _ _ (by decide)))))
  · simp [AndroidAutomator.take_screenshot_android, h1, h2]
  · simp [AndroidAutomator.take_screenshot_android, h1]

/-- Concrete environment where the device capture succeeds and the pull
step fails with a stderr message. -/
def envPullFails : Env := mkEnv (fun cmd =>
  if cmd = ["adb", "pull", "/sdcard/screenshot.png", "shot.png"] then
    ProcResult.err "" "device offline"
  else ProcResult.ok "")

/-- Witness for take_screenshot_android_contract: a concrete capture-success
pull-failure run. -/
theorem take_screenshot_android_contract_witness :
    (AndroidAutomator.take_screenshot_android envPullFails "shot.png" "/sdcard/screenshot.png").1
        = false ∧
    strContains
      (AndroidAutomator.take_screenshot_android envPullFails "shot.png"
        "/sdcard/screenshot.png").2 "Failed to pull screenshot" = true := by
  have h := (take_screenshot_android_contract envPullFails "shot.png"
    "/sdcard/screenshot.png").1 (by decide) (by decide)
  rw [h.1]
  exact ⟨rfl, h.2⟩

/-- C4 (amended): with a process-successful monkey launch, open_app returns
the attempting-to-open success on the injected-event marker or empty
output; otherwise it runs the pm list packages probe and returns the
found-but-unlaunchable failure exactly when the probe succeeds and its
output contains the package name, and the might-not-be-installed failure
when the probe fails or its output lacks the name; the three message
shapes are pairwise distinct. -/
theorem open_app_contract :
    ∀ (env : Env) (package_name : String),
      ((AndroidAutomator.run_adb_command env ["shell", "monkey", "-p", package_name, "-c",
          "android.intent.category.LAUNCHER", "1"]).1 = true →
        ((strContains (AndroidAutomator.run_adb_command env ["shell", "monkey", "-p",
            package_name, "-c", "android.intent.category.LAUNCHER", "1"]).2
            "Events injected: 1" = true ∨
          (AndroidAutomator.run_adb_command env ["shell", "monkey", "-p", package_name, "-c",
            "android.intent.category.LAUNCHER", "1"]).2 = "" →
          AndroidAutomator.open_app env package_name =
            (true, "Attempting to open app " ++ pyQ ++ package_name ++ pyQ ++ ".")) ∧
         (strContains (AndroidAutomator.run_adb_command env ["shell", "monkey", "-p",
            package_name, "-c", "android.intent.category.LAUNCHER", "1"]).2
            "Events injected: 1" = false →
          (AndroidAutomator.run_adb_command env ["shell", "monkey", "-p", package_name, "-c",
            "android.intent.category.LAUNCHER", "1"]).2 ≠ "" →
          ((AndroidAutomator.run_adb_command env
              ["shell", "pm", "list", "packages", package_name]).1 = true →
           strContains (AndroidAutomator.run_adb_command env
              ["shell", "pm", "list", "packages", package_name]).2 package_name = true →
            AndroidAutomator.open_app env package_name =
              (false, "App " ++ pyQ ++ package_name ++ pyQ ++
                " found, but could not be launched via monkey. Output: " ++
                (AndroidAutomator.run_adb_command env ["shell", "monkey", "-p", package_name,
                  "-c", "android.intent.category.LAUNCHER", "1"]).2)) ∧
          ((AndroidAutomator.run_adb_command env
              ["shell", "pm", "list", "packages", package_name]).1 = false ∨
           strContains (AndroidAutomator.run_adb_command env
              ["shell", "pm", "list", "packages", package_name]).2 package_name = false →
            AndroidAutomator.open_app env package_name =
              (false, "Failed to open app " ++ pyQ ++ package_name ++ pyQ ++
                ". It might not be installed or launchable. ADB Output: " ++
                (AndroidAutomator.run_adb_command env ["shell", "monkey", "-p", package_name,
                  "-c", "android.intent.category.LAUNCHER", "1"]).2))))) ∧
      (∀ out : String,
        ("Attempting to open app " ++ pyQ ++ package_name ++ pyQ ++ ".") ≠
          ("App " ++ pyQ ++ package_name ++ pyQ ++
            " found, but could not be launched via monkey. Output: " ++ out) ∧
        ("Attempting to open app " ++ pyQ ++ package_name ++ pyQ ++ ".") ≠
          ("Failed to open app " ++ pyQ ++ package_name ++ pyQ ++
            ". It might not be installed or launchable. ADB Output: " ++ out) ∧
        ("App " ++ pyQ ++ package_name ++ pyQ ++
            " found, but could not be launched via monkey. Output: " ++ out) ≠
          ("Failed to open app " ++ pyQ ++ package_name ++ pyQ ++
            ". It might not be installed or launchable. ADB Output: " ++ out)) := by
  intro env package_name
  constructor
  · intro h1
    constructor
    · intro hm
      rcases hm with hm | hm <;> simp [AndroidAutomator.open_app, h1, hm]
    · intro hm he
      constructor
      · intro hp hc
        simp [AndroidAutomator.open_app, h1, hm, he, hp, hc]
      · intro hpc
        rcases hpc with hp | hc
        · simp [AndroidAutomator.open_app, h1, hm, he, hp]
        · rcases hq : (AndroidAutomator.run_adb_command env
            ["shell", "pm", "list", "packages", package_name]).1 with _ | _ <;>
            simp [AndroidAutomator.open_app, h1, hm, he, hq, hc]
  · intro out
    refine ⟨?_, ?_, ?_⟩
    · exact string_ne_of_take_ne _ _ 2 (show ['A', 't'] ≠ ['A', 'p'] by decide)
    · exact string_ne_of_take_ne _ _ 1 (show ['A'] ≠ ['F'] by decide)
    · exact string_ne_of_take_ne _ _ 2 (show ['A', 'p'] ≠ ['F', 'a'] by decide)

/-- Concrete environment in which every ADB subprocess run succeeds with
empty output. -/
def envAdbQuiet : Env := mkEnv (fun _ => ProcResult.ok "")

/-- Witness for open_app_contract: a concrete monkey run with empty output
reports the attempting-to-open success. -/
theorem open_app_contract_witness :
    AndroidAutomator.open_app envAdbQuiet "com.android.chrome" =
      (true, "Attempting to open app " ++ pyQ ++ "com.android.chrome" ++ pyQ ++ ".") :=
  ((open_app_contract envAdbQuiet "com.android.chrome").1 (by decide)).1 (Or.inr (by decide))

/-- Concrete environment in which the monkey launch exits successfully with
an ambiguous output and every other ADB run (in particular the pm list
packages probe) exits non-zero; the probe failure message embeds the full
command line and therefore contains the package name. -/
def envProbeFails : Env := mkEnv (fun cmd =>
  if cmd = ["adb", "shell", "monkey", "-p", "com.x", "-c",
      "android.intent.category.LAUNCHER", "1"] then
    ProcResult.ok "boom"
  else ProcResult.err "" "no devices/emulators found")

/-- Counterexample to C4 as stated: the primary monkey call succeeds as a
process with ambiguous output, the secondary probe output does contain the
package name, yet open_app returns the might-not-be-installed message
rather than the found-but-unlaunchable one, because the probe process
itself failed. -/
theorem open_app_probe_counterexample :
    (AndroidAutomator.run_adb_command envProbeFails ["shell", "monkey", "-p", "com.x", "-c",
      "android.intent.category.LAUNCHER", "1"]).1 = true ∧
    strContains (AndroidAutomator.run_adb_command envProbeFails ["shell", "monkey", "-p",
      "com.x", "-c", "android.intent.category.LAUNCHER", "1"]).2 "Events injected: 1" = false ∧
    (AndroidAutomator.run_adb_command envProbeFails ["shell", "monkey", "-p", "com.x", "-c",
      "android.intent.category.LAUNCHER", "1"]).2 = "boom" ∧
    strContains (AndroidAutomator.run_adb_command envProbeFails
      ["shell", "pm", "list", "packages", "com.x"]).2 "com.x" = true ∧
    AndroidAutomator.open_app envProbeFails "com.x" =
      (false, "Failed to open app " ++ pyQ ++ "com.x" ++ pyQ ++
        ". It might not be installed or launchable. ADB Output: boom") := by
  decide

/-- Recognizer for the tap-invocation event, used to state that the ADB
runner was never invoked for a tap. -/
def isDroidTapEvent : Event → Bool
  | Event.droidTap _ _ => true
  | _ => false

/-- C8: an adb tap line whose coordinate tokens are not both parsable as
integers makes dispatch log the invalid-coordinates error, and no tap
invocation of the backend (hence no ADB subprocess for the tap) occurs. -/
theorem adb_tap_invalid_coordinates :
    ∀ (env : Env) (s : LauncherState) (cmd a b : String),
      pySplit (pyLower cmd) = ["adb", "tap", a, b] →
      (pyInt a = none ∨ pyInt b = none) →
      env.androidCtor = CtorOutcome.ok →
      Event.log "Jarvis (Droid) Error: Invalid coordinates for tap. Usage: adb tap <x> <y>"
          ∈ (process_ui_command env s cmd).2 ∧
      (process_ui_command env s cmd).2.any isDroidTapEvent = false := by
  intro env s cmd a b hparts hbad hctor
  rcases hs : s.android_automator_instance with _ | u
  · rcases hbad with hb | hb
    · simp [process_ui_command, hparts, handle_adb_command, load_android_automator, hs, hctor,
        hb, isDroidTapEvent,
        show strContains "adb" "open" = false from by decide]
    · rcases hpa : pyInt a with _ | x <;>
        simp [process_ui_command, hparts, handle_adb_command, load_android_automator, hs, hctor,
          hb, hpa, isDroidTapEvent,
          show strContains "adb" "open" = false from by decide]
  · rcases hbad with hb | hb
    · simp [process_ui_command, hparts, handle_adb_command, load_android_automator, hs, hctor,
        hb, isDroidTapEvent,
        show strContains "adb" "open" = false from by decide]
    · rcases hpa : pyInt a with _ | x <;>
        simp [process_ui_command, hparts, handle_adb_command, load_android_automator, hs, hctor,
          hb, hpa, isDroidTapEvent,
          show strContains "adb" "open" = false from by decide]

/-- Witness for adb_tap_invalid_coordinates on the concrete line
adb tap ab 10. -/
theorem adb_tap_invalid_coordinates_witness :
    Event.log "Jarvis (Droid) Error: Invalid coordinates for tap. Usage: adb tap <x> <y>"
        ∈ (process_ui_command envAdbQuiet initialState "adb tap ab 10").2 ∧
    (process_ui_command envAdbQuiet initialState "adb tap ab 10").2.any isDroidTapEvent
        = false :=
  adb_tap_invalid_coordinates envAdbQuiet initialState "adb tap ab 10" "ab" "10"
    (by decide) (Or.inl (by decide)) (by decide)

theorem listMem_append (a : String) (xs ys : List String) :
    listMem a (xs ++ ys) = (listMem a xs || listMem a ys) := by
  induction xs with
  | nil => simp [listMem]
  | cons b t ih =>
    show (b = a || listMem a (t ++ ys)) = ((b = a || listMem a t) || listMem a ys)
    rw [ih, Bool.or_assoc]

theorem listIndexOf_append_not_mem (a : String) (xs ys : List String)
    (h : listMem a xs = false) : listIndexOf a (xs ++ (a :: ys)) = xs.length := by
  induction xs with
  | nil => simp [listIndexOf]
  | cons b t ih =>
    have hb : (decide (b = a) || listMem a t) = false := h
    rcases Bool.or_eq_false_iff.mp hb with ⟨hb1, hb2⟩
    show (if b = a then 0 else listIndexOf a (t ++ (a :: ys)) + 1) = t.length + 1
    rw [if_neg (by simpa using hb1), ih hb2]

theorem getD_append_length (xs ys : List String) (n : Nat) (d : String) :
    (xs ++ ys).getD (xs.length + n) d = ys.getD n d := by
  induction xs with
  | nil => simp
  | cons b t ih =>
    show (b :: (t ++ ys)).getD (t.length + 1 + n) d = ys.getD n d
    rw [show t.length + 1 + n = (t.length + n) + 1 from by omega]
    simpa using ih

theorem getElemQ_append_length (xs ys : List String) (n : Nat) :
    (xs ++ ys)[xs.length + n]? = ys[n]? := by
  induction xs with
  | nil => simp
  | cons b t ih =>
    rw [show (b :: t).length + n = (t.length + n) + 1 from by simp [Nat.add_right_comm]]
    simpa using ih

theorem getElemTotal_append_length (xs ys : List String) (n : Nat)
    (h1 : n < ys.length) (h2 : xs.length + n < (xs ++ ys).length) :
    (xs ++ ys)[xs.length + n] = ys[n] := by
  have hq : (xs ++ ys)[xs.length + n]? = ys[n]? := getElemQ_append_length xs ys n
  rw [List.getElem?_eq_getElem h2, List.getElem?_eq_getElem h1] at hq
  exact Option.some.inj hq

theorem take_append_length (xs ys : List String) : (xs ++ ys).take xs.length = xs := by
  induction xs with
  | nil => rfl
  | cons b t ih => simp [ih]

theorem charToNatOfNat (n : Nat) (h : n.isValidChar) : (Char.ofNat n).toNat = n := by
  rw [Char.ofNat, dif_pos h]
  simp [Char.ofNatAux, Char.toNat, UInt32.toNat, BitVec.toNat_ofNatLt]

theorem toLower_toLower (c : Char) : (c.toLower).toLower = c.toLower := by
  simp only [Char.toLower]
  split
  · next h =>
    have hv : (c.toNat + 32).isValidChar := by
      constructor
      omega
    rw [charToNatOfNat _ hv]
    rw [if_neg (by omega)]
  · rfl

theorem pySplitChars_chars (P : Char → Prop) :
    ∀ (l acc : List Char), (∀ c ∈ l, P c) → (∀ c ∈ acc, P c) →
      ∀ t ∈ pySplitChars l acc, ∀ c ∈ t.data, P c := by
  intro l
  induction l with
  | nil =>
    intro acc _ hacc t ht c hc
    by_cases hae : acc.isEmpty
    · simp [pySplitChars, hae] at ht
    · simp [pySplitChars, hae] at ht
      subst ht
      exact hacc c (by simpa using hc)
  | cons ch lt ih =>
    intro acc hl hacc t ht c hc
    have hl2 : ∀ d ∈ lt, P d := fun d hd => hl d (List.mem_cons_of_mem ch hd)
    by_cases hw : ch.isWhitespace
    · by_cases hae : acc.isEmpty
      · simp [pySplitChars, hw, hae] at ht
        exact ih [] hl2 (by simp) t ht c hc
      · simp [pySplitChars, hw, hae] at ht
        rcases ht with ht | ht
        · subst ht
          exact hacc c (by simpa using hc)
        · exact ih [] hl2 (by simp) t ht c hc
    · simp [pySplitChars, hw] at ht
      refine ih (ch :: acc) hl2 ?_ t ht c hc
      intro d hd
      rcases List.mem_cons.mp hd with hd | hd
      · rw [hd]
        exact hl ch (List.mem_cons_self ch lt)
      · exact hacc d hd

theorem pySplitChars_ne_empty :
    ∀ (l acc : List Char), ∀ t ∈ pySplitChars l acc, t.data ≠ [] := by
  intro l
  induction l with
  | nil =>
    intro acc t ht
    by_cases hae : acc.isEmpty
    · simp [pySplitChars, hae] at ht
    · simp [pySplitChars, hae] at ht
      subst ht
      intro he
      apply hae
      have : acc.reverse = [] := he
      simpa [List.isEmpty_iff] using this
  | cons ch lt ih =>
    intro acc t ht
    by_cases hw : ch.isWhitespace
    · by_cases hae : acc.isEmpty
      · simp [pySplitChars, hw, hae] at ht
        exact ih [] t ht
      · simp [pySplitChars, hw, hae] at ht
        rcases ht with ht | ht
        · subst ht
          intro he
          apply hae
          have : acc.reverse = [] := he
          simpa [List.isEmpty_iff] using this
        · exact ih [] t ht
    · simp [pySplitChars, hw] at ht
      exact ih (ch :: acc) t ht

theorem pySplit_token_ne_empty (s t : String) (ht : t ∈ pySplit s) : t ≠ "" := by
  intro he
  have := pySplitChars_ne_empty s.data [] t ht
  rw [he] at this
  exact this rfl

theorem pySplit_pyLower_token_lower (cmd t : String)
    (ht : t ∈ pySplit (pyLower cmd)) : pyLower t = t := by
  have hall : ∀ c ∈ t.data, Char.toLower c = c := by
    refine pySplitChars_chars (fun c => Char.toLower c = c) (pyLower cmd).data [] ?_ (by simp)
      t ht
    intro c hc
    simp only [pyLower] at hc
    rcases List.mem_map.mp hc with ⟨d, _, hd⟩
    rw [← hd]
    exact toLower_toLower d
  show String.mk (t.data.map Char.toLower) = t
  rw [List.map_congr_left hall]
  simp

/-- C9: each backend handle is an Option that every command leaves either
absent or holding a fully constructed automator; a loader called with the
handle already set returns it untouched with no construction attempt; a
constructor failure (missing module or constructor exception) is caught,
logged as a non-fatal message and leaves the handle at none; and a command
routed to a backend whose handle is none triggers a fresh construction
attempt (the retry). -/
theorem backend_handle_invariant :
    ∀ (env : Env) (s : LauncherState),
      (s.windows_automator_instance = some () → load_windows_automator env s = (s, [])) ∧
      (s.windows_automator_instance = none → env.winCtor = CtorOutcome.ok →
        load_windows_automator env s =
          ({ s with windows_automator_instance := some () },
           [Event.attemptLoadWindows, Event.log "Jarvis: WindowsAutomator loaded."])) ∧
      (s.windows_automator_instance = none → env.winCtor = CtorOutcome.importErr →
        load_windows_automator env s =
          (s, [Event.attemptLoadWindows,
               Event.log "Jarvis Error: Could not import WindowsAutomator module."])) ∧
      (∀ e : String, s.windows_automator_instance = none →
        env.winCtor = CtorOutcome.exnErr e →
        load_windows_automator env s =
          (s, [Event.attemptLoadWindows,
               Event.log ("Jarvis Error: Failed to initialize WindowsAutomator: " ++ e)])) ∧
      (s.android_automator_instance = some () → load_android_automator env s = (s, [])) ∧
      (s.android_automator_instance = none → env.androidCtor = CtorOutcome.ok →
        load_android_automator env s =
          ({ s with android_automator_instance := some () },
           [Event.attemptLoadAndroid,
            Event.log "Jarvis: AndroidAutomator loaded. Initializing ADB connection..."])) ∧
      (s.android_automator_instance = none → env.androidCtor = CtorOutcome.importErr →
        load_android_automator env s =
          (s, [Event.attemptLoadAndroid,
               Event.log "Jarvis Error: Could not import AndroidAutomator module."])) ∧
      (∀ e : String, s.android_automator_instance = none →
        env.androidCtor = CtorOutcome.exnErr e →
        load_android_automator env s =
          (s, [Event.attemptLoadAndroid,
               Event.log ("Jarvis Error: Failed to initialize AndroidAutomator: " ++ e)])) ∧
      (∀ (cmd k : String) (rest : List String),
        pySplit (pyLower cmd) = "system" :: k :: rest →
        s.windows_automator_instance = none →
        Event.attemptLoadWindows ∈ (process_ui_command env s cmd).2) ∧
      (∀ (cmd k : String) (rest : List String),
        pySplit (pyLower cmd) = "adb" :: k :: rest →
        s.android_automator_instance = none →
        Event.attemptLoadAndroid ∈ (process_ui_command env s cmd).2) ∧
      (∀ cmd : String,
        ((process_ui_command env s cmd).1.windows_automator_instance = none ∨
         (process_ui_command env s cmd).1.windows_automator_instance = some ()) ∧
        ((process_ui_command env s cmd).1.android_automator_instance = none ∨
         (process_ui_command env s cmd).1.android_automator_instance = some ())) := by
  intro env s
  refine ⟨?_, ?_, ?_, ?_, ?_, ?_, ?_, ?_, ?_, ?_, ?_⟩
  · intro h
    simp [load_windows_automator, h]
  · intro h hc
    simp [load_windows_automator, h, hc]
  · intro h hc
    cases s
    simp_all [load_windows_automator]
  · intro e h hc
    cases s
    simp_all [load_windows_automator]
  · intro h
    simp [load_android_automator, h]
  · intro h hc
    simp [load_android_automator, h, hc]
  · intro h hc
    cases s
    simp_all [load_android_automator]
  · intro e h hc
    cases s
    simp_all [load_android_automator]
  · intro cmd k rest hparts hw
    cases hwc : env.winCtor <;>
    cases hca : strContains (pyLower cmd) "android" <;>
    rcases hsa : s.android_automator_instance with _ | v <;>
    cases hac : env.androidCtor <;>
      simp [process_ui_command, hparts, hw, hwc, hca, hsa, hac, load_windows_automator,
        load_android_automator, handle_system_command]
  · intro cmd k rest hparts ha
    rcases hsw : s.windows_automator_instance with _ | v <;>
    cases hwc : env.winCtor <;>
    cases hca : strContains (pyLower cmd) "android" <;>
    cases hac : env.androidCtor <;>
      simp [process_ui_command, hparts, ha, hwc, hca, hsw, hac, load_windows_automator,
        load_android_automator,
        show strContains "adb" "open" = false from by decide]
  · intro cmd
    constructor
    · rcases h : (process_ui_command env s cmd).1.windows_automator_instance with _ | u
      · exact Or.inl rfl
      · exact Or.inr rfl
    · rcases h : (process_ui_command env s cmd).1.android_automator_instance with _ | u
      · exact Or.inl rfl
      · exact Or.inr rfl

/-- Witness for backend_handle_invariant: successful first-use construction
of the Windows backend from the fresh state. -/
theorem backend_handle_invariant_witness :
    load_windows_automator envAdbQuiet initialState =
      ({ initialState with windows_automator_instance := some () },
       [Event.attemptLoadWindows, Event.log "Jarvis: WindowsAutomator loaded."]) :=
  (backend_handle_invariant envAdbQuiet initialState).2.1 rfl rfl

/-- Recognizer for backend construction attempts of either kind. -/
def isAttemptLoadEvent : Event → Bool
  | Event.attemptLoadWindows => true
  | Event.attemptLoadAndroid => true
  | _ => false

/-- C1 (amended): every line whose first token is not a recognized action
keyword gets the not-recognized log message, with no side condition; and
neither backend is constructed provided, additionally, the first token does
not contain the substring open and the lower-cased line does not contain
the substring android (the preload tests in the source use substring checks
on exactly those two, so without these provisos an unrecognized line can
still construct a backend). -/
theorem unrecognized_command_contract :
    ∀ (env : Env) (s : LauncherState) (cmd t : String) (rest : List String),
      pySplit (pyLower cmd) = t :: rest →
      listMem t ["hello", "open", "list", "system", "screenshot", "adb"] = false →
      Event.log ("Jarvis: Command " ++ pyQ ++ cmd ++ pyQ ++
          " not recognized or arguments missing.") ∈ (process_ui_command env s cmd).2 ∧
      (strContains t "open" = false →
       strContains (pyLower cmd) "android" = false →
       (process_ui_command env s cmd).2.any isAttemptLoadEvent = false ∧
       (process_ui_command env s cmd).1 = s) := by
  intro env s cmd t rest hparts hmem
  have h1 : t ≠ "hello" := by
    intro he
    rw [he] at hmem
    simp [listMem] at hmem
  have h2 : t ≠ "open" := by
    intro he
    rw [he] at hmem
    simp [listMem] at hmem
  have h3 : t ≠ "list" := by
    intro he
    rw [he] at hmem
    simp [listMem] at hmem
  have h4 : t ≠ "system" := by
    intro he
    rw [he] at hmem
    simp [listMem] at hmem
  have h5 : t ≠ "screenshot" := by
    intro he
    rw [he] at hmem
    simp [listMem] at hmem
  have h6 : t ≠ "adb" := by
    intro he
    rw [he] at hmem
    simp [listMem] at hmem
  refine ⟨?_, fun hopen hand => ⟨?_, ?_⟩⟩
  · simp [process_ui_command, hparts, h1, h2, h3, h4, h5, h6]
  · simp [process_ui_command, hparts, hopen, hand, h1, h2, h3, h4, h5, h6, isAttemptLoadEvent]
  · simp [process_ui_command, hparts, hopen, hand, h1, h2, h3, h4, h5, h6]

/-- Witness for unrecognized_command_contract on the concrete line
launch notepad. -/
theorem unrecognized_command_contract_witness :
    Event.log ("Jarvis: Command " ++ pyQ ++ "launch notepad" ++ pyQ ++
        " not recognized or arguments missing.")
      ∈ (process_ui_command envAdbQuiet initialState "launch notepad").2 ∧
    (strContains "launch" "open" = false →
     strContains (pyLower "launch notepad") "android" = false →
     (process_ui_command envAdbQuiet initialState "launch notepad").2.any isAttemptLoadEvent
       = false ∧
     (process_ui_command envAdbQuiet initialState "launch notepad").1 = initialState) :=
  unrecognized_command_contract envAdbQuiet initialState "launch notepad" "launch" ["notepad"]
    (by decide) (by decide)

/-- Counterexample to C1 as stated: the line opening has an unrecognized
first token and is reported not recognized, yet the Windows backend is
constructed while processing it, because the preload test asks whether
open occurs inside the first token rather than equals it. -/
theorem unrecognized_command_counterexample :
    pySplit (pyLower "opening") = ["opening"] ∧
    listMem "opening" ["hello", "open", "list", "system", "screenshot", "adb"] = false ∧
    Event.log ("Jarvis: Command " ++ pyQ ++ "opening" ++ pyQ ++
        " not recognized or arguments missing.")
      ∈ (process_ui_command envAdbQuiet initialState "opening").2 ∧
    Event.attemptLoadWindows ∈ (process_ui_command envAdbQuiet initialState "opening").2 ∧
    (process_ui_command envAdbQuiet initialState "opening").1.windows_automator_instance
      = some () := by
  decide

theorem pyLower_append (a b : String) : pyLower (a ++ b) = pyLower a ++ pyLower b := by
  show String.mk ((a ++ b).data.map Char.toLower) =
    String.mk (a.data.map Char.toLower ++ b.data.map Char.toLower)
  rw [String.data_append, List.map_append]

theorem pyLower_idem (a : String) : pyLower (pyLower a) = pyLower a := by
  show String.mk ((a.data.map Char.toLower).map Char.toLower) = String.mk (a.data.map Char.toLower)
  rw [List.map_map]
  exact congrArg String.mk (List.map_congr_left (fun c _ => toLower_toLower c))

theorem joinSpace_lower :
    ∀ (l : List String), (∀ x ∈ l, pyLower x = x) → pyLower (joinSpace l) = joinSpace l := by
  intro l
  induction l with
  | nil => intro _; rfl
  | cons x t ih =>
    intro h
    cases t with
    | nil => exact h x (by simp)
    | cons y u =>
      show pyLower (x ++ " " ++ joinSpace (y :: u)) = x ++ " " ++ joinSpace (y :: u)
      rw [pyLower_append, pyLower_append, h x (by simp),
        ih (fun z hz => h z (by simp [hz])),
        show pyLower " " = " " from by decide]

theorem getD_default_or_mem (l : List String) (n : Nat) (d : String) :
    l.getD n d = d ∨ l.getD n d ∈ l := by
  induction l generalizing n with
  | nil => simp
  | cons b t ih =>
    cases n with
    | zero => simp
    | succ m =>
      rcases ih m with h | h
      · left
        simpa using h
      · right
        right
        simpa using h

/-- Predicate on trace events: every string argument handed to a backend
operation is lower-case (a fixed point of pyLower); events carrying no
backend string argument are unconstrained. -/
def eventArgsLower : Event → Prop
  | Event.winOpenApplication a => pyLower a = a
  | Event.winListDirectory p => pyLower p = p
  | Event.winSystemCommand k _ => pyLower k = k
  | Event.winTakeScreenshot f => pyLower f = f
  | Event.droidOpenApp p => pyLower p = p
  | Event.droidTakeScreenshot f => pyLower f = f
  | Event.droidText t => pyLower t = t
  | _ => True

theorem load_windows_events (env : Env) (s : LauncherState) :
    ∀ e ∈ (load_windows_automator env s).2, eventArgsLower e := by
  rcases hs : s.windows_automator_instance with _ | u
  · cases hc : env.winCtor <;> simp [load_windows_automator, hs, hc, eventArgsLower]
  · simp [load_windows_automator, hs]

theorem load_android_events (env : Env) (s : LauncherState) :
    ∀ e ∈ (load_android_automator env s).2, eventArgsLower e := by
  rcases hs : s.android_automator_instance with _ | u
  · cases hc : env.androidCtor <;> simp [load_android_automator, hs, hc, eventArgsLower]
  · simp [load_android_automator, hs]

theorem forall_mem_ite_snd {c : Prop} [Decidable c] (a b : LauncherState × List Event)
    {P : Event → Prop} (ha : ∀ e ∈ a.2, P e) (hb : ∀ e ∈ b.2, P e) :
    ∀ e ∈ (if c then a else b).2, P e := by
  split
  · exact ha
  · exact hb

theorem forall_mem_map_log (f : String → String) (l : List String) :
    ∀ e ∈ l.map (fun x => Event.log (f x)), eventArgsLower e := by
  intro e he
  rcases List.mem_map.mp he with ⟨a, _, rfl⟩
  simp [eventArgsLower]

theorem handle_system_command_args (env : Env) (s : LauncherState) (parts : List String)
    (h : ∀ x ∈ parts, pyLower x = x) :
    ∀ e ∈ (handle_system_command env s parts).2, eventArgsLower e := by
  have hk : pyLower (parts[1]?.getD "") = parts[1]?.getD "" := by
    rcases getD_default_or_mem parts 1 "" with hg | hg <;>
      simp only [List.getD_eq_getElem?_getD] at hg
    · rw [hg]
      decide
    · exact h _ hg
  rcases hlw : (load_windows_automator env s).1.windows_automator_instance with _ | u
  · simp only [handle_system_command, hlw]
    exact List.forall_mem_append.mpr ⟨load_windows_events env s, by simp [eventArgsLower]⟩
  · simp only [handle_system_command, hlw]
    refine List.forall_mem_append.mpr ⟨load_windows_events env s, ?_⟩
    simp only [eventArgsLower, List.forall_mem_cons, List.not_mem_nil, false_implies,
      implies_true, and_true, true_and]
    simpa using hk

theorem handle_list_command_args (env : Env) (s : LauncherState) (parts : List String)
    (h : ∀ x ∈ parts, pyLower x = x) :
    ∀ e ∈ (handle_list_command env s parts).2, eventArgsLower e := by
  have hd : pyLower (joinSpace parts.tail) = joinSpace parts.tail :=
    joinSpace_lower _ (fun x hx => h x (List.drop_subset 1 parts (by
      rw [List.drop_one]
      exact hx)))
  rcases hlw : (load_windows_automator env s).1.windows_automator_instance with _ | u
  · simp only [handle_list_command, hlw]
    exact List.forall_mem_append.mpr ⟨load_windows_events env s, by simp [eventArgsLower]⟩
  · rcases hcall : WindowsAutomator.list_directory_contents env.fs (joinSpace (parts.drop 1))
      with ⟨b, pr⟩
    cases b <;> rcases pr with l | m <;>
      simp only [handle_list_command, hlw, hcall] <;>
      refine List.forall_mem_append.mpr ⟨List.forall_mem_append.mpr
        ⟨load_windows_events env s, by
          simp [eventArgsLower]
          simpa using hd⟩, ?_⟩
    · simp [eventArgsLower]
    · simp [eventArgsLower]
    · refine List.forall_mem_append.mpr ⟨by simp [eventArgsLower], ?_⟩
      exact forall_mem_map_log (fun item => "  - " ++ item) l
    · simp [eventArgsLower]

theorem handle_open_command_args (env : Env) (s : LauncherState) (parts : List String)
    (h : ∀ x ∈ parts, pyLower x = x) :
    ∀ e ∈ (handle_open_command env s parts).2, eventArgsLower e := by
  have hsub : ∀ x ∈ parts.tail, pyLower x = x := fun x hx =>
    h x (List.drop_subset 1 parts (by
      rw [List.drop_one]
      exact hx))
  have hd : pyLower (joinSpace parts.tail) = joinSpace parts.tail := joinSpace_lower _ hsub
  have htk : ∀ n, pyLower (joinSpace (parts.tail.take n)) = joinSpace (parts.tail.take n) :=
    fun n => joinSpace_lower _ (fun x hx => hsub x (List.take_subset n _ hx))
  cases hc1 : listMem "on" parts.tail with
  | false =>
    by_cases happ : joinSpace parts.tail = ""
    · simp [handle_open_command, List.drop_one, hc1, happ, eventArgsLower]
    · rcases hlw : (load_windows_automator env s).1.windows_automator_instance with _ | u
      · simp [handle_open_command, List.drop_one, hc1, happ, hlw]
        rintro e (he | rfl)
        · exact load_windows_events env s e he
        · simp [eventArgsLower]
      · simp [handle_open_command, List.drop_one, hc1, happ, hlw]
        rintro e (he | rfl | rfl)
        · exact load_windows_events env s e he
        · simpa [eventArgsLower] using hd
        · simp [eventArgsLower]
  | true =>
    by_cases hc2 : listIndexOf "on" parts.tail + 1 < parts.length - 1
    · have hb : listIndexOf "on" parts.tail + 1 + 1 < parts.length := by omega
      by_cases hc3a : pyLower parts[listIndexOf "on" parts.tail + 1 + 1] = "android"
      · by_cases happ : joinSpace (parts.tail.take (listIndexOf "on" parts.tail)) = ""
        · simp [handle_open_command, List.drop_one, hc1, hc2, hc3a, happ, eventArgsLower]
        · rcases hla : (load_android_automator env s).1.android_automator_instance with _ | u
          · simp [handle_open_command, List.drop_one, hc1, hc2, hc3a, happ, hla]
            rintro e (he | rfl)
            · exact load_android_events env s e he
            · simp [eventArgsLower]
          · simp [handle_open_command, List.drop_one, hc1, hc2, hc3a, happ, hla]
            rintro e (he | rfl | rfl | rfl)
            · exact load_android_events env s e he
            · simp [eventArgsLower]
            · simpa [eventArgsLower] using htk (listIndexOf "on" parts.tail)
            · simp [eventArgsLower]
      · by_cases hc3w : pyLower parts[listIndexOf "on" parts.tail + 1 + 1] = "windows"
        · by_cases happ : joinSpace (parts.tail.take (listIndexOf "on" parts.tail)) = ""
          · simp [handle_open_command, List.drop_one, hc1, hc2, hc3a, hc3w, happ,
              eventArgsLower]
          · rcases hlw : (load_windows_automator env s).1.windows_automator_instance with _ | u
            · simp [handle_open_command, List.drop_one, hc1, hc2, hc3a, hc3w, happ, hlw]
              rintro e (he | rfl)
              · exact load_windows_events env s e he
              · simp [eventArgsLower]
            · simp [handle_open_command, List.drop_one, hc1, hc2, hc3a, hc3w, happ, hlw]
              rintro e (he | rfl | rfl)
              · exact load_windows_events env s e he
              · simpa [eventArgsLower] using htk (listIndexOf "on" parts.tail)
              · simp [eventArgsLower]
        · by_cases happ : joinSpace parts.tail = ""
          · simp [handle_open_command, List.drop_one, hc1, hc2, hc3a, hc3w, happ,
              eventArgsLower]
          · rcases hlw : (load_windows_automator env s).1.windows_automator_instance with _ | u
            · simp [handle_open_command, List.drop_one, hc1, hc2, hc3a, hc3w, happ, hlw]
              rintro e (he | rfl)
              · exact load_windows_events env s e he
              · simp [eventArgsLower]
            · simp [handle_open_command, List.drop_one, hc1, hc2, hc3a, hc3w, happ, hlw]
              rintro e (he | rfl | rfl)
              · exact load_windows_events env s e he
              · simpa [eventArgsLower] using hd
              · simp [eventArgsLower]
    · by_cases happ : joinSpace parts.tail = ""
      · simp [handle_open_command, List.drop_one, hc1, hc2, happ, eventArgsLower]
      · rcases hlw : (load_windows_automator env s).1.windows_automator_instance with _ | u
        · simp [handle_open_command, List.drop_one, hc1, hc2, happ, hlw]
          rintro e (he | rfl)
          · exact load_windows_events env s e he
          · simp [eventArgsLower]
        · simp [handle_open_command, List.drop_one, hc1, hc2, happ, hlw]
          rintro e (he | rfl | rfl)
          · exact load_windows_events env s e he
          · simpa [eventArgsLower] using hd
          · simp [eventArgsLower]

theorem handle_screenshot_command_args (env : Env) (s : LauncherState) (parts : List String)
    (h : ∀ x ∈ parts, pyLower x = x) :
    ∀ e ∈ (handle_screenshot_command env s parts).2, eventArgsLower e := by
  rcases ht : parts.tail with _ | ⟨a, rest1⟩
  · rcases hlw : (load_windows_automator env s).1.windows_automator_instance with _ | u
    · simp [handle_screenshot_command, List.drop_one, ht, hlw]
      rintro e (he | rfl)
      · exact load_windows_events env s e he
      · simp [eventArgsLower]
    · simp [handle_screenshot_command, List.drop_one, ht, hlw]
      rintro e (he | rfl | rfl)
      · exact load_windows_events env s e he
      · simp only [eventArgsLower]
        decide
      · simp [eventArgsLower]
  · have hsub : ∀ x ∈ parts.tail, pyLower x = x := fun x hx =>
      h x (List.drop_subset 1 parts (by
        rw [List.drop_one]
        exact hx))
    have hafix : pyLower a = a := hsub a (by rw [ht]; simp)
    have h1 : parts.drop 2 = (parts.drop 1).drop 1 := by
      rw [List.drop_drop]
    have hd2 : parts.drop 2 = rest1 := by
      rw [h1, List.drop_one, List.drop_one, ht]
      rfl
    have hlitA : pyLower "android" = "android" := by decide
    have hlitW : pyLower "windows" = "windows" := by decide
    have hlitE : pyLower "" = "" := by decide
    by_cases hA : a = "android"
    · rcases hr : rest1 with _ | ⟨b, rest2⟩
      · rcases hla : (load_android_automator env s).1.android_automator_instance with _ | u
        · simp [handle_screenshot_command, List.drop_one, ht, hd2, hr, hA, hafix, hla,
            hlitA, hlitW]
          rintro e (he | rfl)
          · exact load_android_events env s e he
          · simp [eventArgsLower]
        · simp [handle_screenshot_command, List.drop_one, ht, hd2, hr, hA, hafix, hla,
            hlitA, hlitW]
          rintro e (he | rfl | rfl)
          · exact load_android_events env s e he
          · simp only [eventArgsLower]
            decide
          · simp [eventArgsLower]
      · have hbfix : pyLower b = b := hsub b (by
          rw [ht, hr]
          simp)
        have hbp : pyLower (b ++ ".png") = b ++ ".png" := by
          rw [pyLower_append, hbfix, show pyLower ".png" = ".png" from by decide]
        cases hext : (strEndsWith b ".png" || strEndsWith b ".jpg" || strEndsWith b ".jpeg") with
        | false =>
          have hcs : (strEndsWith b ".png" = false ∧ strEndsWith b ".jpg" = false) ∧
              strEndsWith b ".jpeg" = false := by
            simpa using hext
          rcases hla : (load_android_automator env s).1.android_automator_instance with _ | u
          · simp [handle_screenshot_command, List.drop_one, ht, hd2, hr, hA, hafix, hbfix,
              hcs, hla, hlitA, hlitW]
            rintro e (he | rfl)
            · exact load_android_events env s e he
            · simp [eventArgsLower]
          · simp [handle_screenshot_command, List.drop_one, ht, hd2, hr, hA, hafix, hbfix,
              hcs, hla, hlitA, hlitW]
            rintro e (he | rfl | rfl)
            · exact load_android_events env s e he
            · simpa [eventArgsLower] using hbp
            · simp [eventArgsLower]
        | true =>
          have hcond : ¬((strEndsWith b ".png" = false ∧ strEndsWith b ".jpg" = false) ∧
              strEndsWith b ".jpeg" = false) := by
            intro hcc
            rw [hcc.1.1, hcc.1.2, hcc.2] at hext
            simp at hext
          rcases hla : (load_android_automator env s).1.android_automator_instance with _ | u
          · simp [handle_screenshot_command, List.drop_one, ht, hd2, hr, hA, hafix, hbfix,
              hcond, hla, hlitA, hlitW]
            rintro e (he | rfl)
            · exact load_android_events env s e he
            · simp [eventArgsLower]
          · simp [handle_screenshot_command, List.drop_one, ht, hd2, hr, hA, hafix, hbfix,
              hcond, hla, hlitA, hlitW]
            rintro e (he | rfl | rfl)
            · exact load_android_events env s e he
            · simpa [eventArgsLower] using hbfix
            · simp [eventArgsLower]
    · by_cases hW : a = "windows"
      · rcases hr : rest1 with _ | ⟨b, rest2⟩
        · rcases hlw : (load_windows_automator env s).1.windows_automator_instance with _ | u
          · simp [handle_screenshot_command, List.drop_one, ht, hd2, hr, hA, hW, hafix, hlw,
              hlitA, hlitW, hlitE]
            rintro e (he | rfl)
            · exact load_windows_events env s e he
            · simp [eventArgsLower]
          · simp [handle_screenshot_command, List.drop_one, ht, hd2, hr, hA, hW, hafix, hlw,
              hlitA, hlitW, hlitE]
            rintro e (he | rfl | rfl)
            · exact load_windows_events env s e he
            · simp only [eventArgsLower]
              decide
            · simp [eventArgsLower]
        · have hbfix : pyLower b = b := hsub b (by
            rw [ht, hr]
            simp)
          have hbp : pyLower (b ++ ".png") = b ++ ".png" := by
            rw [pyLower_append, hbfix, show pyLower ".png" = ".png" from by decide]
          cases hext : (strEndsWith b ".png" || strEndsWith b ".jpg" ||
              strEndsWith b ".jpeg") with
          | false =>
            have hcs : (strEndsWith b ".png" = false ∧ strEndsWith b ".jpg" = false) ∧
                strEndsWith b ".jpeg" = false := by
              simpa using hext
            rcases hlw : (load_windows_automator env s).1.windows_automator_instance with _ | u
            · simp [handle_screenshot_command, List.drop_one, ht, hd2, hr, hA, hW, hafix,
                hbfix, hcs, hlw, hlitA, hlitW, hlitE]
              rintro e (he | rfl)
              · exact load_windows_events env s e he
              · simp [eventArgsLower]
            · simp [handle_screenshot_command, List.drop_one, ht, hd2, hr, hA, hW, hafix,
                hbfix, hcs, hlw, hlitA, hlitW, hlitE]
              rintro e (he | rfl | rfl)
              · exact load_windows_events env s e he
              · simpa [eventArgsLower] using hbp
              · simp [eventArgsLower]
          | true =>
            have hcond : ¬((strEndsWith b ".png" = false ∧ strEndsWith b ".jpg" = false) ∧
                strEndsWith b ".jpeg" = false) := by
              intro hcc
              rw [hcc.1.1, hcc.1.2, hcc.2] at hext
              simp at hext
            rcases hlw : (load_windows_automator env s).1.windows_automator_instance with _ | u
            · simp [handle_screenshot_command, List.drop_one, ht, hd2, hr, hA, hW, hafix,
                hbfix, hcond, hlw, hlitA, hlitW, hlitE]
              rintro e (he | rfl)
              · exact load_windows_events env s e he
              · simp [eventArgsLower]
            · simp [handle_screenshot_command, List.drop_one, ht, hd2, hr, hA, hW, hafix,
                hbfix, hcond, hlw, hlitA, hlitW, hlitE]
              rintro e (he | rfl | rfl)
              · exact load_windows_events env s e he
              · simpa [eventArgsLower] using hbfix
              · simp [eventArgsLower]
      · by_cases hE : a = ""
        · rcases hlw : (load_windows_automator env s).1.windows_automator_instance with _ | u
          · simp [handle_screenshot_command, List.drop_one, ht, hd2, hA, hW, hE, hafix, hlw,
              hlitA, hlitW, hlitE]
            rintro e (he | rfl)
            · exact load_windows_events env s e he
            · simp [eventArgsLower]
          · simp [handle_screenshot_command, List.drop_one, ht, hd2, hA, hW, hE, hafix, hlw,
              hlitA, hlitW, hlitE]
            rintro e (he | rfl | rfl)
            · exact load_windows_events env s e he
            · simp only [eventArgsLower]
              decide
            · simp [eventArgsLower]
        · have hap : pyLower (a ++ ".png") = a ++ ".png" := by
            rw [pyLower_append, hafix, show pyLower ".png" = ".png" from by decide]
          cases hext : (strEndsWith a ".png" || strEndsWith a ".jpg" ||
              strEndsWith a ".jpeg") with
          | false =>
            have hcs : (strEndsWith a ".png" = false ∧ strEndsWith a ".jpg" = false) ∧
                strEndsWith a ".jpeg" = false := by
              simpa using hext
            rcases hlw : (load_windows_automator env s).1.windows_automator_instance with _ | u
            · simp [handle_screenshot_command, List.drop_one, ht, hd2, hA, hW, hE, hafix,
                hcs, hlw, hlitA, hlitW, hlitE]
              rintro e (he | rfl)
              · exact load_windows_events env s e he
              · simp [eventArgsLower]
            · simp [handle_screenshot_command, List.drop_one, ht, hd2, hA, hW, hE, hafix,
                hcs, hlw, hlitA, hlitW, hlitE]
              rintro e (he | rfl | rfl)
              · exact load_windows_events env s e he
              · simpa [eventArgsLower] using hap
              · simp [eventArgsLower]
          | true =>
            have hcond : ¬((strEndsWith a ".png" = false ∧ strEndsWith a ".jpg" = false) ∧
                strEndsWith a ".jpeg" = false) := by
              intro hcc
              rw [hcc.1.1, hcc.1.2, hcc.2] at hext
              simp at hext
            rcases hlw : (load_windows_automator env s).1.windows_automator_instance with _ | u
            · simp [handle_screenshot_command, List.drop_one, ht, hd2, hA, hW, hE, hafix,
                hcond, hlw, hlitA, hlitW, hlitE]
              rintro e (he | rfl)
              · exact load_windows_events env s e he
              · simp [eventArgsLower]
            · simp [handle_screenshot_command, List.drop_one, ht, hd2, hA, hW, hE, hafix,
                hcond, hlw, hlitA, hlitW, hlitE]
              rintro e (he | rfl | rfl)
              · exact load_windows_events env s e he
              · simpa [eventArgsLower] using hafix
              · simp [eventArgsLower]

theorem eventArgsLower_log (m : String) : eventArgsLower (Event.log m) := trivial

theorem eventArgsLower_attemptW : eventArgsLower Event.attemptLoadWindows := trivial

theorem eventArgsLower_attemptA : eventArgsLower Event.attemptLoadAndroid := trivial

theorem eventArgsLower_devices : eventArgsLower Event.droidListDevices := trivial

theorem eventArgsLower_tap (x y : Int) : eventArgsLower (Event.droidTap x y) := trivial

theorem eventArgsLower_swipe (x1 y1 x2 y2 dur : Int) :
    eventArgsLower (Event.droidSwipe x1 y1 x2 y2 dur) := trivial

theorem eventArgsLower_text (t : String) (h : pyLower t = t) :
    eventArgsLower (Event.droidText t) := h

theorem handle_adb_command_args (env : Env) (s : LauncherState) (parts : List String)
    (h : ∀ x ∈ parts, pyLower x = x) :
    ∀ e ∈ (handle_adb_command env s parts).2, eventArgsLower e := by
  have hja : pyLower (joinSpace (parts.drop 2)) = joinSpace (parts.drop 2) :=
    joinSpace_lower _ (fun x hx => h x (List.drop_subset 2 parts hx))
  rcases hla : (load_android_automator env s).1.android_automator_instance with _ | u
  · simp +contextual [handle_adb_command, hla, or_imp, forall_and,
      load_android_events env s, eventArgsLower_log]
  · by_cases hs1 : parts[1]?.getD "" = "devices"
    · rcases hdev : AndroidAutomator.list_connected_devices env with ⟨b, pr⟩
      cases b <;> rcases pr with l | m
      · simp +contextual [handle_adb_command, hla, hs1, hdev, or_imp, forall_and,
          load_android_events env s, eventArgsLower_log, eventArgsLower_devices]
      · simp +contextual [handle_adb_command, hla, hs1, hdev, or_imp, forall_and,
          load_android_events env s, eventArgsLower_log, eventArgsLower_devices]
      · by_cases hl : l = [] <;>
          simp +contextual [handle_adb_command, hla, hs1, hdev, hl, or_imp, forall_and,
            load_android_events env s, eventArgsLower_log, eventArgsLower_devices]
      · simp +contextual [handle_adb_command, hla, hs1, hdev, or_imp, forall_and,
          load_android_events env s, eventArgsLower_log, eventArgsLower_devices]
    · by_cases hs2 : parts[1]?.getD "" = "tap"
      · by_cases hlen2 : parts.length - 2 = 2
        · have hb2 : 2 < parts.length := by omega
          have hb3 : 3 < parts.length := by omega
          rcases hp1 : pyInt parts[2] with _ | x <;> rcases hp2 : pyInt parts[3] with _ | y <;>
            simp +contextual [handle_adb_command, hla, hs1, hs2, hlen2, hp1, hp2, or_imp,
              forall_and, load_android_events env s, eventArgsLower_log, eventArgsLower_tap]
        · simp +contextual [handle_adb_command, hla, hs1, hs2, hlen2, or_imp, forall_and,
            load_android_events env s, eventArgsLower_log]
      · by_cases hs3 : parts[1]?.getD "" = "swipe"
        · by_cases hlen4 : 4 ≤ parts.length - 2
          · rcases hp1 : pyInt (parts[2]?.getD "") with _ | x1
            · simp +contextual [handle_adb_command, hla, hs1, hs2, hs3, hlen4, hp1, or_imp,
                forall_and, load_android_events env s, eventArgsLower_log]
            · rcases hp2 : pyInt (parts[3]?.getD "") with _ | y1
              · simp +contextual [handle_adb_command, hla, hs1, hs2, hs3, hlen4, hp1, hp2,
                  or_imp, forall_and, load_android_events env s, eventArgsLower_log]
              · rcases hp3 : pyInt (parts[4]?.getD "") with _ | x2
                · simp +contextual [handle_adb_command, hla, hs1, hs2, hs3, hlen4, hp1, hp2,
                    hp3, or_imp, forall_and, load_android_events env s, eventArgsLower_log]
                · rcases hp4 : pyInt (parts[5]?.getD "") with _ | y2
                  · simp +contextual [handle_adb_command, hla, hs1, hs2, hs3, hlen4, hp1,
                      hp2, hp3, hp4, or_imp, forall_and, load_android_events env s,
                      eventArgsLower_log]
                  · by_cases hlen5 : 4 < parts.length - 2
                    · have hb6 : 6 < parts.length := by omega
                      rcases hpd : pyInt parts[6] with _ | dur <;>
                        simp +contextual [handle_adb_command, hla, hs1, hs2, hs3, hlen4,
                          hp1, hp2, hp3, hp4, hlen5, hpd, or_imp, forall_and,
                          load_android_events env s, eventArgsLower_log,
                          eventArgsLower_swipe]
                    · simp +contextual [handle_adb_command, hla, hs1, hs2, hs3, hlen4, hp1,
                        hp2, hp3, hp4, hlen5, or_imp, forall_and,
                        load_android_events env s, eventArgsLower_log, eventArgsLower_swipe]
          · simp +contextual [handle_adb_command, hla, hs1, hs2, hs3, hlen4, or_imp,
              forall_and, load_android_events env s, eventArgsLower_log]
        · by_cases hs4 : parts[1]?.getD "" = "text"
          · by_cases hne : parts.drop 2 = []
            · simp +contextual [handle_adb_command, hla, hs1, hs2, hs3, hs4, hne, or_imp,
                forall_and, load_android_events env s, eventArgsLower_log]
            · simp +contextual [handle_adb_command, hla, hs1, hs2, hs3, hs4, hne, or_imp,
                forall_and, load_android_events env s, eventArgsLower_log,
                eventArgsLower_text, hja]
          · simp +contextual [handle_adb_command, hla, hs1, hs2, hs3, hs4, or_imp,
              forall_and, load_android_events env s, eventArgsLower_log]

theorem preload_win_events (env : Env) (s : LauncherState) (c1 c2 : Prop)
    [Decidable c1] [Decidable c2] :
    ∀ e ∈ (if c1 then (if c2 then load_windows_automator env s else (s, [])) else (s, [])).2,
      eventArgsLower e := by
  split
  · split
    · exact load_windows_events env s
    · simp
  · simp

theorem preload_android_events (env : Env) (s : LauncherState) (c1 c2 : Prop)
    [Decidable c1] [Decidable c2] :
    ∀ e ∈ (if c1 then (if c2 then load_android_automator env s else (s, [])) else (s, [])).2,
      eventArgsLower e := by
  split
  · split
    · exact load_android_events env s
    · simp
  · simp

/-- C3 (amended): the dispatcher lower-cases the entire input line before
tokenizing, so on every input line every string argument passed to a
backend operation (application and package names, directory paths,
screenshot filenames, system-command keys, adb text) is lower-case: each
argument-carrying event of the processing trace satisfies eventArgsLower,
i.e. its argument is a fixed point of pyLower.  In particular open MyApp
passes myapp, never MyApp. -/
theorem argument_case_contract :
    ∀ (env : Env) (s : LauncherState) (cmd : String),
      ∀ e ∈ (process_ui_command env s cmd).2, eventArgsLower e := by
  intro env s cmd
  have hts : ∀ x ∈ pySplit (pyLower cmd), pyLower x = x :=
    fun x hx => pySplit_pyLower_token_lower cmd x hx
  rcases hp : pySplit (pyLower cmd) with _ | ⟨action, rest⟩
  · simp [process_ui_command, hp, eventArgsLower]
  · have htokens : ∀ x ∈ action :: rest, pyLower x = x := by
      rw [← hp]
      exact hts
    simp only [process_ui_command, hp]
    refine forall_mem_ite_snd _ _ ?_ (forall_mem_ite_snd _ _ ?_ (forall_mem_ite_snd _ _ ?_
      (forall_mem_ite_snd _ _ ?_ (forall_mem_ite_snd _ _ ?_ (forall_mem_ite_snd _ _ ?_ ?_)))))
    · exact List.forall_mem_append.mpr ⟨List.forall_mem_append.mpr ⟨List.forall_mem_append.mpr
        ⟨by simp [eventArgsLower], preload_win_events env s _ _⟩,
        preload_android_events env _ _ _⟩, by simp [eventArgsLower]⟩
    · exact List.forall_mem_append.mpr ⟨List.forall_mem_append.mpr ⟨List.forall_mem_append.mpr
        ⟨by simp [eventArgsLower], preload_win_events env s _ _⟩,
        preload_android_events env _ _ _⟩, handle_open_command_args env _ _ htokens⟩
    · exact List.forall_mem_append.mpr ⟨List.forall_mem_append.mpr ⟨List.forall_mem_append.mpr
        ⟨by simp [eventArgsLower], preload_win_events env s _ _⟩,
        preload_android_events env _ _ _⟩, handle_list_command_args env _ _ htokens⟩
    · exact List.forall_mem_append.mpr ⟨List.forall_mem_append.mpr ⟨List.forall_mem_append.mpr
        ⟨by simp [eventArgsLower], preload_win_events env s _ _⟩,
        preload_android_events env _ _ _⟩, handle_system_command_args env _ _ htokens⟩
    · exact List.forall_mem_append.mpr ⟨List.forall_mem_append.mpr ⟨List.forall_mem_append.mpr
        ⟨by simp [eventArgsLower], preload_win_events env s _ _⟩,
        preload_android_events env _ _ _⟩, handle_screenshot_command_args env _ _ htokens⟩
    · exact List.forall_mem_append.mpr ⟨List.forall_mem_append.mpr ⟨List.forall_mem_append.mpr
        ⟨by simp [eventArgsLower], preload_win_events env s _ _⟩,
        preload_android_events env _ _ _⟩, handle_adb_command_args env _ _ htokens⟩
    · exact List.forall_mem_append.mpr ⟨List.forall_mem_append.mpr ⟨List.forall_mem_append.mpr
        ⟨by simp [eventArgsLower], preload_win_events env s _ _⟩,
        preload_android_events env _ _ _⟩, by simp [eventArgsLower]⟩

/-- Witness for argument_case_contract: concrete mixed-case lines whose
traces contain a screenshot-filename invocation and a system-command
invocation, both with lower-cased arguments. -/
theorem argument_case_contract_witness :
    eventArgsLower (Event.winTakeScreenshot "mypic.png") ∧
    eventArgsLower (Event.winSystemCommand "shutdown" false) :=
  ⟨argument_case_contract envAdbQuiet initialState "screenshot MyPic.PNG"
      (Event.winTakeScreenshot "mypic.png") (by decide),
   argument_case_contract envAdbQuiet initialState "system Shutdown"
      (Event.winSystemCommand "shutdown" false) (by decide)⟩

/-- Counterexample to C3 as stated: the line open MyApp passes the
lower-cased string myapp to open_application, never the original-case
MyApp, because the split is taken of the lower-cased line. -/
theorem argument_case_counterexample :
    Event.winOpenApplication "myapp"
        ∈ (process_ui_command envAdbQuiet initialState "open MyApp").2 ∧
    Event.winOpenApplication "MyApp"
        ∉ (process_ui_command envAdbQuiet initialState "open MyApp").2 := by
  decide

/-- Recognizer for Windows open_application invocations. -/
def isWinOpenApplicationEvent : Event → Bool
  | Event.winOpenApplication _ => true
  | _ => false

/-- Recognizer for Android open_app invocations. -/
def isDroidOpenAppEvent : Event → Bool
  | Event.droidOpenApp _ => true
  | _ => false

/-- C2 (amended): open x on android invokes only the Android open_app and
open x on windows or bare open x invokes only the Windows open_application;
but an open command whose text merely contains the word android without an
on android suffix still routes to the Windows open_application: the
android keyword alone triggers construction of the Android backend, never
its invocation.  Throughout, x stands for a non-empty argument token list
containing no on token. -/
theorem open_routing_contract :
    ∀ (env : Env) (s : LauncherState) (cmd : String) (xs : List String),
      listMem "on" xs = false →
      joinSpace xs ≠ "" →
      ((pySplit (pyLower cmd) = "open" :: (xs ++ ["on", "android"]) →
        env.androidCtor = CtorOutcome.ok →
        Event.droidOpenApp (joinSpace xs) ∈ (process_ui_command env s cmd).2 ∧
        (process_ui_command env s cmd).2.any isWinOpenApplicationEvent = false) ∧
       (pySplit (pyLower cmd) = "open" :: (xs ++ ["on", "windows"]) →
        env.winCtor = CtorOutcome.ok →
        Event.winOpenApplication (joinSpace xs) ∈ (process_ui_command env s cmd).2 ∧
        (process_ui_command env s cmd).2.any isDroidOpenAppEvent = false) ∧
       (pySplit (pyLower cmd) = "open" :: xs →
        env.winCtor = CtorOutcome.ok →
        Event.winOpenApplication (joinSpace xs) ∈ (process_ui_command env s cmd).2 ∧
        (process_ui_command env s cmd).2.any isDroidOpenAppEvent = false) ∧
       (pySplit (pyLower cmd) = "open" :: xs →
        strContains (pyLower cmd) "android" = true →
        env.androidCtor = CtorOutcome.ok →
        s.android_automator_instance = none →
        Event.attemptLoadAndroid ∈ (process_ui_command env s cmd).2 ∧
        (process_ui_command env s cmd).2.any isDroidOpenAppEvent = false)) := by
  intro env s cmd xs hon hname
  have hxe : xs ≠ [] := by
    intro he
    rw [he] at hname
    exact hname rfl
  have hlen : 0 < xs.length := List.length_pos.mpr hxe
  refine ⟨?_, ?_, ?_, ?_⟩
  · intro hparts hao
    cases hca : strContains (pyLower cmd) "android" <;>
    rcases hsw : s.windows_automator_instance with _ | u <;>
    cases hwc : env.winCtor <;>
    rcases hsa : s.android_automator_instance with _ | v <;>
      simp [process_ui_command, hparts, handle_open_command, load_windows_automator,
        load_android_automator, hca, hsw, hwc, hsa, hao, hon, hname,
        listMem_append, listMem, listIndexOf_append_not_mem, getD_append_length,
        getElemQ_append_length, getElemTotal_append_length, take_append_length,
        isWinOpenApplicationEvent,
        show pyLower "android" = "android" from by decide,
        show strContains "open" "open" = true from by decide,
        show ∀ n : Nat, n + 1 < n + 2 from fun n => by omega]
  · intro hparts hw
    cases hca : strContains (pyLower cmd) "android" <;>
    rcases hsw : s.windows_automator_instance with _ | u <;>
    cases hac : env.androidCtor <;>
    rcases hsa : s.android_automator_instance with _ | v <;>
      simp [process_ui_command, hparts, handle_open_command, load_windows_automator,
        load_android_automator, hca, hsw, hac, hsa, hw, hon, hname,
        listMem_append, listMem, listIndexOf_append_not_mem, getD_append_length,
        getElemQ_append_length, getElemTotal_append_length, take_append_length,
        isDroidOpenAppEvent,
        show pyLower "windows" = "windows" from by decide,
        show strContains "open" "open" = true from by decide,
        show ∀ n : Nat, n + 1 < n + 2 from fun n => by omega]
  · intro hparts hw
    cases hca : strContains (pyLower cmd) "android" <;>
    rcases hsw : s.windows_automator_instance with _ | u <;>
    cases hac : env.androidCtor <;>
    rcases hsa : s.android_automator_instance with _ | v <;>
      simp [process_ui_command, hparts, handle_open_command, load_windows_automator,
        load_android_automator, hca, hsw, hac, hsa, hw, hon, hname,
        listMem, isDroidOpenAppEvent, hlen,
        show strContains "open" "open" = true from by decide]
  · intro hparts hca hao hsa
    rcases hsw : s.windows_automator_instance with _ | u <;>
    cases hwc : env.winCtor <;>
      simp [process_ui_command, hparts, handle_open_command, load_windows_automator,
        load_android_automator, hca, hsw, hwc, hsa, hao, hon, hname,
        listMem, isDroidOpenAppEvent, hlen,
        show strContains "open" "open" = true from by decide]

/-- Witness for open_routing_contract covering the explicit on android and
on windows suffixes and the bare form on concrete lines. -/
theorem open_routing_contract_witness :
    (Event.droidOpenApp "com.android.chrome"
        ∈ (process_ui_command envAdbQuiet initialState "open com.android.chrome on android").2 ∧
      (process_ui_command envAdbQuiet initialState
        "open com.android.chrome on android").2.any isWinOpenApplicationEvent = false) ∧
    (Event.winOpenApplication "notepad"
        ∈ (process_ui_command envAdbQuiet initialState "open notepad on windows").2 ∧
      (process_ui_command envAdbQuiet initialState
        "open notepad on windows").2.any isDroidOpenAppEvent = false) ∧
    (Event.winOpenApplication "notepad"
        ∈ (process_ui_command envAdbQuiet initialState "open notepad").2 ∧
      (process_ui_command envAdbQuiet initialState
        "open notepad").2.any isDroidOpenAppEvent = false) :=
  ⟨(open_routing_contract envAdbQuiet initialState "open com.android.chrome on android"
      ["com.android.chrome"] (by decide) (by decide)).1 (by decide) (by decide),
   (open_routing_contract envAdbQuiet initialState "open notepad on windows"
      ["notepad"] (by decide) (by decide)).2.1 (by decide) (by decide),
   (open_routing_contract envAdbQuiet initialState "open notepad"
      ["notepad"] (by decide) (by decide)).2.2.1 (by decide) (by decide)⟩

/-- Counterexample to C2 as stated: open com.android.chrome contains the
word android but has no on android suffix; it is routed to the Windows
open_application (the Android backend is constructed but its open_app is
never invoked). -/
theorem open_routing_counterexample :
    strContains (pyLower "open com.android.chrome") "android" = true ∧
    Event.winOpenApplication "com.android.chrome"
        ∈ (process_ui_command envAdbQuiet initialState "open com.android.chrome").2 ∧
    Event.attemptLoadAndroid
        ∈ (process_ui_command envAdbQuiet initialState "open com.android.chrome").2 ∧
    (process_ui_command envAdbQuiet initialState
        "open com.android.chrome").2.any isDroidOpenAppEvent = false := by
  decide
